import Mathlib

/-!
# Foot Holics: the click gates, the session gate and the theme toggle of `assets/js/main.js`

A shallow embedding of the stateful parts of `assets/js/main.js`:

* the ad gate `AdManager` (lines 698-821) over `localStorage`,
* the inline gate `window.handleAdClick` (lines 838-853) over `sessionStorage`,
* the Telegram popup trigger and the splash screen (lines 400-544),
* the theme toggle (lines 558-581).

Browser storage is passed explicitly; every handler returns the storage it leaves
behind together with the effects it performed, in order.
-/

namespace FootHolics

/-! ## Key-value stores -/

/-- A `Storage` object holding plain strings (`sessionStorage`, and the `theme` entry of
`localStorage`): the entries in insertion order. -/
abbrev Store := List (String × String)

/-- The call `storage.getItem(key)`: the stored string, or `none` for `null`. -/
def getItem (st : Store) (key : String) : Option String :=
  st.lookup key

/-- Overwrite the entry of `key` in place, or append a new one: how both a `Storage` object
and a plain JavaScript object take a write. -/
def assign {α : Type} : List (String × α) → String → α → List (String × α)
  | [], key, value => [(key, value)]
  | (k, v) :: rest, key, value =>
    if k = key then (key, value) :: rest else (k, v) :: assign rest key value

/-- The call `storage.setItem(key, value)`. -/
def setItem (st : Store) (key value : String) : Store :=
  assign st key value

/-- JavaScript truthiness of the result of `getItem`: `null` and the empty string are falsy. -/
def truthy : Option String → Bool
  | none => false
  | some s => s != ""

/-! ## The values behind `clicks[href]` -/

/-- The values `clicks[href]` can take for the object read back from storage. Negative and
fractional numbers, `true`, `false` and the empty string are not represented. -/
inductive JsValue
  /-- The result `undefined`: no such property, own or inherited. -/
  | undefined
  /-- A click count: a non-negative integer that is a double (0 stands for -0 as well). -/
  | number (n : Nat)
  /-- The number `Infinity` or `-Infinity`, which `JSON.parse` returns for a numeral beyond
  the range of doubles, such as 1e400: truthy, and written back by `JSON.stringify` as
  `null`. -/
  | infinite
  /-- The value `null`: falsy, and not a number. -/
  | null
  /-- Any other truthy value: a function or object found on `Object.prototype`, a non-empty
  string, an array or an object. Its content is not tracked. -/
  | other
  deriving DecidableEq, Repr

/-- The property names every object created by `JSON.parse` inherits from `Object.prototype`. -/
def objectPrototypeKeys : List String :=
  ["constructor", "__defineGetter__", "__defineSetter__", "hasOwnProperty",
   "__lookupGetter__", "__lookupSetter__", "isPrototypeOf", "propertyIsEnumerable",
   "toString", "valueOf", "__proto__", "toLocaleString"]

/-- The object `clicks`: its own properties, in insertion order. Its prototype is
`Object.prototype`. -/
structure JsObject where
  own : List (String × JsValue)
  deriving DecidableEq, Repr

/-- The read `clicks[href]`: an own property wins, then the prototype chain is searched. -/
def JsObject.get (clicks : JsObject) (href : String) : JsValue :=
  match clicks.own.lookup href with
  | some v => v
  | none => if href ∈ objectPrototypeKeys then JsValue.other else JsValue.undefined

/-- The write `clicks[href] = value` of a primitive value. Without an own property
`__proto__` the write reaches the setter of `Object.prototype`, which ignores primitives. -/
def JsObject.set (clicks : JsObject) (href : String) (value : JsValue) : JsObject :=
  if href = "__proto__" ∧ clicks.own.lookup href = none then clicks
  else ⟨assign clicks.own href value⟩

/-- The expression `v || 0`: `undefined`, `null` and 0 are falsy. -/
def orZero : JsValue → JsValue
  | JsValue.undefined => JsValue.number 0
  | JsValue.null => JsValue.number 0
  | JsValue.number n => JsValue.number n
  | JsValue.infinite => JsValue.infinite
  | JsValue.other => JsValue.other

/-- The number of halvings that bring `m` below 2^53, at most `fuel` of them: for
`fuel = m` the exponent `e` of the spacing `2 ^ e` between the doubles around `m`. -/
def halvings : Nat → Nat → Nat
  | 0, _ => 0
  | fuel + 1, m => if m < 2 ^ 53 then 0 else halvings fuel (m / 2) + 1

/-- The double nearest to the natural number `m`, ties going to the even significand, as the
addition of doubles rounds: below 2^53 every natural number is a double, above it only the
multiples of the spacing `2 ^ e` are. -/
def nearestDouble (m : Nat) : Nat :=
  let e := halvings m m
  if e = 0 then m
  else
    let q := m / 2 ^ e
    let r := m % 2 ^ e
    let half := 2 ^ (e - 1)
    if r < half then q * 2 ^ e
    else if half < r then (q + 1) * 2 ^ e
    else if q % 2 = 0 then q * 2 ^ e
    else (q + 1) * 2 ^ e

/-- The expression `v + 1` for a value `v` that came out of `orZero` (so never `undefined`):
a number is incremented in double arithmetic, `Infinity` stays `Infinity`, `null` counts as
0, anything else is turned into a string and gets "1" appended. -/
def plusOne : JsValue → JsValue
  | JsValue.number n => JsValue.number (nearestDouble (n + 1))
  | JsValue.infinite => JsValue.infinite
  | JsValue.null => JsValue.number 1
  | _ => JsValue.other

/-- What `JSON.parse(JSON.stringify(v))` makes of a value: `Infinity` comes back as `null`,
every other value as itself. -/
def written (v : JsValue) : JsValue :=
  match v with
  | JsValue.infinite => JsValue.null
  | _ => v

/-- The object `JSON.parse` reads from the text `JSON.stringify(clicks)`. -/
def reparse (clicks : JsObject) : JsObject :=
  ⟨clicks.own.map fun p => (p.1, written p.2)⟩

/-! ## The entry `footholics_ad_clicks` of `localStorage` -/

/-- A string stored under `footholics_ad_clicks`, seen through `JSON.parse`. Two kinds of
text are represented: the text of a plain object, and a text that is not JSON at all. A
text that is JSON but not an object (such as `5`, `null` or `[]`) is not represented: no
value of this type stands for it. -/
inductive Item
  /-- A text that `JSON.parse` reads as the plain object `obj`. -/
  | json (obj : JsObject)
  /-- A text `s` that is not JSON: `JSON.parse` throws a `SyntaxError` on it. The empty
  text is falsy and never reaches `JSON.parse`. -/
  | text (s : String)
  deriving DecidableEq, Repr

/-- The exceptions a handler can end with. -/
inductive JsError
  | syntaxError
  deriving DecidableEq, Repr

/-- What a click handler decided: `intercept` when the default navigation is suppressed. -/
inductive Decision
  | intercept
  | allow
  deriving DecidableEq, Repr

/-- The observable steps of `AdManager`, in the order they happen. -/
inductive Effect
  /-- The call `localStorage.getItem(storageKey)`. -/
  | read
  /-- The call `localStorage.setItem(storageKey, ...)` with the text written. -/
  | write (item : Item)
  /-- The call `e.preventDefault()`. -/
  | preventDefault
  /-- The call `this.showInterstitialAd()`. -/
  | interstitial
  /-- The call `this.showAdNotification(message)`. -/
  | adNotification (message : String)
  deriving DecidableEq, Repr

/-- The part of the browser `AdManager` works on: the entry `footholics_ad_clicks` of
`localStorage` (`none` when `getItem` returns `null`) and the effects performed so far. -/
structure World where
  stored : Option Item
  log : List Effect
  deriving DecidableEq, Repr

/-- Record one more effect. -/
def World.emit (w : World) (e : Effect) : World :=
  { w with log := w.log ++ [e] }

/-- The expression `JSON.parse(localStorage.getItem(this.config.storageKey) || '{}')`,
shared by lines 714, 720 and 727. -/
def parseStored (w : World) : World × Except JsError JsObject :=
  let w1 := w.emit Effect.read
  match w.stored with
  | none => (w1, Except.ok ⟨[]⟩)
  | some (Item.json obj) => (w1, Except.ok obj)
  | some (Item.text s) =>
    if s = "" then (w1, Except.ok ⟨[]⟩) else (w1, Except.error JsError.syntaxError)

/-- The statement `localStorage.setItem(this.config.storageKey, JSON.stringify(clicks))`:
the text written is the one `JSON.parse` reads as `reparse clicks`. -/
def storeClicks (w : World) (clicks : JsObject) : World :=
  { stored := some (Item.json (reparse clicks)),
    log := w.log ++ [Effect.write (Item.json (reparse clicks))] }

/-- The method `AdManager.getClickCount` (lines 713-716). -/
def getClickCount (w : World) (href : String) : World × Except JsError JsValue :=
  match parseStored w with
  | (w1, Except.error err) => (w1, Except.error err)
  | (w1, Except.ok clicks) => (w1, Except.ok (orZero (clicks.get href)))

/-- The method `AdManager.incrementClickCount` (lines 719-723). -/
def incrementClickCount (w : World) (href : String) : World × Except JsError Unit :=
  match parseStored w with
  | (w1, Except.error err) => (w1, Except.error err)
  | (w1, Except.ok clicks) =>
    (storeClicks w1 (clicks.set href (plusOne (orZero (clicks.get href)))), Except.ok ())

/-- The method `AdManager.resetClickCount` (lines 726-730). -/
def resetClickCount (w : World) (href : String) : World × Except JsError Unit :=
  match parseStored w with
  | (w1, Except.error err) => (w1, Except.error err)
  | (w1, Except.ok clicks) => (storeClicks w1 (clicks.set href (JsValue.number 0)), Except.ok ())

/-- The test `href.startsWith('#')`. -/
def startsWithHash (href : String) : Bool :=
  match href.data with
  | c :: _ => c == '#'
  | [] => false

/-- The guard of line 738: `href.startsWith('#') || href === 'index.html'`. -/
def exempt (href : String) : Bool :=
  startsWithHash href || href == "index.html"

/-- The method `AdManager.handleAdClick` (lines 733-759); `href` is
`link.getAttribute('href')`. -/
def handleAdClick (w : World) (href : String) : World × Except JsError Unit :=
  if exempt href then (w, Except.ok ())
  else
    match getClickCount w href with
    | (w1, Except.error err) => (w1, Except.error err)
    | (w1, Except.ok clickCount) =>
      if clickCount = JsValue.number 0 then
        let w2 := w1.emit Effect.preventDefault
        let w3 := w2.emit Effect.interstitial
        match incrementClickCount w3 href with
        | (w4, Except.error err) => (w4, Except.error err)
        | (w4, Except.ok _) =>
          (w4.emit (Effect.adNotification "Please wait... Ad loading"), Except.ok ())
      else
        match resetClickCount w1 href with
        | (w2, Except.error err) => (w2, Except.error err)
        | (w2, Except.ok _) => (w2.emit (Effect.adNotification "Redirecting..."), Except.ok ())

/-- One click on a category-attached link, started with an empty log: the world it leaves
and how the handler ended. -/
def click (stored : Option Item) (href : String) : World × Except JsError Unit :=
  handleAdClick ⟨stored, []⟩ href

/-- The decision a run of the category-attached handler amounts to: the navigation is
suppressed exactly when `e.preventDefault()` was called. -/
def decisionOf (log : List Effect) : Decision :=
  if Effect.preventDefault ∈ log then Decision.intercept else Decision.allow

/-- Number of `localStorage.setItem` calls in a log. -/
def writes (log : List Effect) : Nat :=
  (log.filter fun e => match e with | Effect.write _ => true | _ => false).length

/-- Number of `localStorage.getItem` calls in a log. -/
def reads (log : List Effect) : Nat :=
  (log.filter fun e => match e with | Effect.read => true | _ => false).length

/-- The notifications emitted in a log, in order. -/
def notifications (log : List Effect) : List String :=
  log.filterMap fun e => match e with | Effect.adNotification m => some m | _ => none

/-- The count stored for `href` as an own property of the stored object, if the stored text
parses and has one. -/
def storedCount (stored : Option Item) (href : String) : Option JsValue :=
  match stored with
  | some (Item.json obj) => obj.own.lookup href
  | _ => none

/-- Whether the handler finds a mapping: the stored entry is absent or empty (and `'{}'` is
parsed in its place), or it is the text of a plain object. -/
def holdsMapping (stored : Option Item) : Bool :=
  match stored with
  | some (Item.text s) => s == ""
  | _ => true

/-- The object `JSON.parse` returns for the stored text, when it returns one. -/
def parsed (stored : Option Item) : Option JsObject :=
  match stored with
  | none => some ⟨[]⟩
  | some (Item.json obj) => some obj
  | some (Item.text s) => if s = "" then some ⟨[]⟩ else none

/-- What the decision of a click depends on: the guard, and the value read for `href`. -/
def expectedDecision (stored : Option Item) (href : String) : Decision :=
  if exempt href then Decision.allow
  else
    match parsed stored with
    | none => Decision.allow
    | some clicks =>
      if orZero (clicks.get href) = JsValue.number 0 then Decision.intercept else Decision.allow

/-! ## The inline gate `window.handleAdClick` -/

/-- What `replace(/[^a-z0-9]/gi, '_')` leaves of one character: a letter or digit of ASCII
stays, every other UTF-16 code unit becomes an underscore (a character beyond the basic
plane is two code units). -/
def replaceChar (c : Char) : List Char :=
  if c.isAlphanum then [c] else if c.val < 0x10000 then ['_'] else ['_', '_']

/-- The session key of line 840: `'ad_click_' + href.replace(/[^a-z0-9]/gi, '_')`. -/
def clickKey (href : String) : String :=
  "ad_click_" ++ String.mk (href.data.flatMap replaceChar)

/-- The observable steps of the inline gate, in order. -/
inductive InlineEffect
  /-- The call `sessionStorage.getItem(key)`. -/
  | read (key : String)
  /-- The call `sessionStorage.setItem(key, value)`. -/
  | write (key value : String)
  /-- The call `showNotification(message, duration)`. -/
  | toast (message : String) (duration : Nat)
  deriving DecidableEq, Repr

/-- Outcome of one call of the inline gate: `sessionStorage` afterwards, the effects, and
the value returned to the `onclick` attribute (`false` suppresses the navigation). -/
structure InlineResult where
  session : Store
  log : List InlineEffect
  returned : Bool
  deriving DecidableEq, Repr

/-- The function `window.handleAdClick` (lines 838-853); `href` is
`linkElement.getAttribute('href')`. -/
def window.handleAdClick (session : Store) (href : String) : InlineResult :=
  let key := clickKey href
  let clicked := getItem session key
  if !truthy clicked then
    { session := setItem session key "true",
      log := [InlineEffect.read key, InlineEffect.write key "true",
              InlineEffect.toast "Please click again to continue..." 2000],
      returned := false }
  else
    { session := session,
      log := [InlineEffect.read key, InlineEffect.toast "Redirecting..." 1000],
      returned := true }

/-- The decision a return value of the inline gate amounts to. -/
def decisionOfReturn (returned : Bool) : Decision :=
  if returned then Decision.allow else Decision.intercept

/-- The `localStorage` entry after `n` clicks on `href` through the category-attached gate,
starting with nothing stored. -/
def categoryState (href : String) : Nat → Option Item
  | 0 => none
  | n + 1 => (click (categoryState href n) href).1.stored

/-- Decision of click number `n` (counted from 0) of the category-attached gate. -/
def categoryDecision (href : String) (n : Nat) : Decision :=
  decisionOf (click (categoryState href n) href).1.log

/-- The `sessionStorage` after `n` clicks on `href` through the inline gate, starting
empty. -/
def inlineState (href : String) : Nat → Store
  | 0 => []
  | n + 1 => (window.handleAdClick (inlineState href n) href).session

/-- Decision of click number `n` (counted from 0) of the inline gate. -/
def inlineDecision (href : String) (n : Nat) : Decision :=
  decisionOfReturn (window.handleAdClick (inlineState href n) href).returned

/-! ## The Telegram popup and the splash screen -/

/-- The module-level state of one page load (lines 401-402, 507-515) and what it created. -/
structure Page where
  /-- The constant `popupShown`, read from `sessionStorage` when the script runs. -/
  popupShown : Option String
  /-- The latch `popupTriggered`. -/
  popupTriggered : Bool
  /-- Whether `checkScrollForPopup` is still registered for `scroll`. -/
  scrollListener : Bool
  /-- Whether the 10 second timeout is still to fire. -/
  timerPending : Bool
  /-- Whether `createTelegramPopup` has put an overlay with its close handlers on this page. -/
  overlay : Bool
  deriving DecidableEq, Repr

/-- A browser session: `sessionStorage`, the page currently loaded, and counters of what
happened so far. -/
structure Session where
  storage : Store
  page : Page
  /-- Calls of `createTelegramPopup` so far. -/
  created : Nat
  /-- Page loads so far. -/
  loads : Nat
  /-- Splash screens displayed so far. -/
  splashes : Nat
  deriving DecidableEq, Repr

/-- What can happen to a page. -/
inductive Event
  /-- The script runs on a newly loaded page of the same session. -/
  | load
  /-- A `scroll` event with the values of `window.pageYOffset` and
  `document.documentElement.scrollTop`, in whole pixels. -/
  | scroll (pageYOffset scrollTop : Nat)
  /-- The 10 second timeout fires. -/
  | timer
  /-- The close button, the dismiss button, a click on the overlay or Escape. -/
  | close
  deriving DecidableEq, Repr

/-- A run of the script (lines 400-402, 506-515 and 521-544): the flag is read, the latch
is cleared, the timeout and the scroll listener are set up, the splash is shown once. -/
def pageLoad (storage : Store) (created loads splashes : Nat) : Session :=
  let page : Page :=
    { popupShown := getItem storage "telegramPopupShown", popupTriggered := false,
      scrollListener := true, timerPending := true, overlay := false }
  if !truthy (getItem storage "splashShown") then
    { storage := setItem storage "splashShown" "true", page := page, created := created,
      loads := loads + 1, splashes := splashes + 1 }
  else
    { storage := storage, page := page, created := created, loads := loads + 1,
      splashes := splashes }

/-- The function `createTelegramPopup` (lines 404-489): the overlay and its close handlers
are installed. -/
def createTelegramPopup (s : Session) : Session :=
  { s with created := s.created + 1, page := { s.page with overlay := true } }

/-- The function `closePopup` (lines 457-463). -/
def closePopup (s : Session) : Session :=
  { s with storage := setItem s.storage "telegramPopupShown" "true" }

/-- The expression `window.pageYOffset || document.documentElement.scrollTop`. -/
def scrollPosition (pageYOffset scrollTop : Nat) : Nat :=
  if pageYOffset ≠ 0 then pageYOffset else scrollTop

/-- The function `checkScrollForPopup` (lines 492-504). -/
def checkScrollForPopup (s : Session) (pageYOffset scrollTop : Nat) : Session :=
  if !s.page.popupTriggered && !truthy s.page.popupShown then
    if scrollPosition pageYOffset scrollTop > 400 then
      let s1 := { s with page := { s.page with popupTriggered := true } }
      let s2 := createTelegramPopup s1
      { s2 with page := { s2.page with scrollListener := false } }
    else s
  else s

/-- The callback of the 10 second timeout (lines 507-512). -/
def popupTimeout (s : Session) : Session :=
  if !s.page.popupTriggered && !truthy s.page.popupShown then
    createTelegramPopup { s with page := { s.page with popupTriggered := true } }
  else s

/-- One event handled by the page. -/
def step (s : Session) : Event → Session
  | Event.load => pageLoad s.storage s.created s.loads s.splashes
  | Event.scroll pageYOffset scrollTop =>
    if s.page.scrollListener then checkScrollForPopup s pageYOffset scrollTop else s
  | Event.timer =>
    if s.page.timerPending then
      popupTimeout { s with page := { s.page with timerPending := false } }
    else s
  | Event.close => if s.page.overlay then closePopup s else s

/-- A sequence of events handled in order. -/
def run (s : Session) (events : List Event) : Session :=
  events.foldl step s

/-- A session begins with the first page load over the given `sessionStorage`. -/
def openSession (storage : Store) : Session :=
  pageLoad storage 0 0 0

/-! ## The theme toggle -/

/-- The durable entry `theme` of `localStorage`, the attribute `data-theme` of the document
element, the icon of the toggle button, and the notifications shown. -/
structure Theme where
  stored : Option String
  dataTheme : String
  icon : String
  toasts : List String
  deriving DecidableEq, Repr

/-- The function `updateThemeIcon` (lines 563-566), applied to the `data-theme` attribute. -/
def updateThemeIcon (theme : String) : String :=
  if theme = "dark" then "🌙" else "☀️"

/-- The load of lines 558-568: `localStorage.getItem('theme') || 'dark'` becomes the
attribute. -/
def loadTheme (stored : Option String) : Theme :=
  let currentTheme := if truthy stored then stored.getD "dark" else "dark"
  { stored := stored, dataTheme := currentTheme, icon := updateThemeIcon currentTheme,
    toasts := [] }

/-- The click handler of the toggle button (lines 571-581). -/
def toggleTheme (t : Theme) : Theme :=
  let newTheme := if t.dataTheme = "dark" then "light" else "dark"
  { stored := some newTheme, dataTheme := newTheme, icon := updateThemeIcon newTheme,
    toasts := t.toasts ++ ["Switched to " ++ newTheme ++ " mode"] }

/-! ## Invariants of the popup trigger -/

/-- Within one page: nothing created yet, or one popup and the latch set. -/
def latched (s : Session) : Prop :=
  s.created = 0 ∨ (s.created = 1 ∧ s.page.popupTriggered = true)

/-- Creations never outnumber page loads, the current page counting only once its latch is
set. -/
def withinLoads (s : Session) : Prop :=
  s.created + (if s.page.popupTriggered then 0 else 1) ≤ s.loads

/-- The overlay exists only once the latch is set, and a set flag means that this page
either read it at load or has its latch set. -/
def closedForGood (s : Session) : Prop :=
  (s.page.overlay = true → s.page.popupTriggered = true)
  ∧ (truthy (getItem s.storage "telegramPopupShown") = true →
      s.page.popupTriggered = true ∨ truthy s.page.popupShown = true)

instance (s : Session) : Decidable (latched s) := by
  unfold latched; infer_instance

instance (s : Session) : Decidable (withinLoads s) := by
  unfold withinLoads; infer_instance

instance (s : Session) : Decidable (closedForGood s) := by
  unfold closedForGood; infer_instance

/-! ## The whole program on one browser -/

/-- Everything the program reacts to, on any page of the session. -/
inductive Action
  /-- A page load, a scroll event, the popup timeout or a popup close. -/
  | page (e : Event)
  /-- A click on a link wired inline to `window.handleAdClick`. -/
  | inlineClick (href : String)
  /-- A click on a category-attached link. -/
  | categoryClick (href : String)
  /-- A click on the theme toggle button. -/
  | toggle
  deriving DecidableEq, Repr

/-- The session (with `sessionStorage`) together with the two durable entries of
`localStorage`. -/
structure Browser where
  session : Session
  clicks : Option Item
  theme : Theme
  deriving DecidableEq, Repr

/-- One action handled by the program. A page load also runs the theme set-up of lines
558-568 again. -/
def act (b : Browser) : Action → Browser
  | Action.page e =>
    { b with session := step b.session e,
             theme := if e = Event.load then loadTheme b.theme.stored else b.theme }
  | Action.inlineClick href =>
    { b with session :=
        { b.session with storage := (window.handleAdClick b.session.storage href).session } }
  | Action.categoryClick href => { b with clicks := (click b.clicks href).1.stored }
  | Action.toggle => { b with theme := toggleTheme b.theme }

/-- A sequence of actions handled in order. -/
def acts (b : Browser) (actions : List Action) : Browser :=
  actions.foldl act b

/-- The `localStorage` entry after clicks on the given destinations, in order, through the
category-attached gate. -/
def clickAll (stored : Option Item) (hrefs : List String) : Option Item :=
  hrefs.foldl (fun st href => (click st href).1.stored) stored

/-- Whether a value is the count 0 or the count 1. -/
def isBinary (v : JsValue) : Bool :=
  v == JsValue.number 0 || v == JsValue.number 1

/-- Whether the stored entry is absent, or an object all of whose own counts are 0 or 1. -/
def binaryCounts : Option Item → Bool
  | none => true
  | some (Item.json obj) => obj.own.all fun p => isBinary p.2
  | some (Item.text _) => false

/-- Whether the inline gate wrote to `sessionStorage` in a log. -/
def inlineWrote (log : List InlineEffect) : Bool :=
  log.any fun e => match e with | InlineEffect.write _ _ => true | _ => false

/-! ## Notifications on the page -/

/-- A notification element in `document.body`. -/
inductive Note
  /-- An element of class `toast-notification`, made by `showNotification`. -/
  | toast (message : String)
  /-- The element without a class made by `AdManager.showAdNotification`. -/
  | adNote (message : String)
  deriving DecidableEq, Repr

/-- The statements of lines 233-236: the first element of class `toast-notification`, if
any, is removed. -/
def removeExisting : List Note → List Note
  | [] => []
  | Note.toast _ :: rest => rest
  | Note.adNote m :: rest => Note.adNote m :: removeExisting rest

/-- The function `showNotification` (lines 231-261), before its timeout fires. -/
def showNotification (body : List Note) (message : String) (_duration : Nat) : List Note :=
  removeExisting body ++ [Note.toast message]

/-- The method `AdManager.showAdNotification` (lines 793-813), before its timeout fires. -/
def showAdNotification (body : List Note) (message : String) : List Note :=
  body ++ [Note.adNote message]

/-- A notification emitted by the program. -/
inductive Emission
  /-- A call `showNotification(message, duration)`: search, theme toggle, inline gate. -/
  | toast (message : String) (duration : Nat)
  /-- A call `this.showAdNotification(message)` of the category-attached gate. -/
  | ad (message : String)
  deriving DecidableEq, Repr

/-- The page after one emission. -/
def render (body : List Note) : Emission → List Note
  | Emission.toast message duration => showNotification body message duration
  | Emission.ad message => showAdNotification body message

/-- The page after a sequence of emissions. -/
def renderAll (body : List Note) (emissions : List Emission) : List Note :=
  emissions.foldl render body

/-- The emissions of one run of the category-attached gate, from its effect log. -/
def categoryEmissions (log : List Effect) : List Emission :=
  (notifications log).map Emission.ad

/-- The emissions of one call of the inline gate, from its effect log. -/
def inlineEmissions (log : List InlineEffect) : List Emission :=
  log.filterMap fun e => match e with
    | InlineEffect.toast m d => some (Emission.toast m d)
    | _ => none

/-- The emission of one click on the theme toggle (line 580). -/
def toggleEmission (t : Theme) : Emission :=
  Emission.toast ("Switched to " ++ (toggleTheme t).dataTheme ++ " mode") 2000

/-- Number of elements of class `toast-notification` on the page. -/
def toastCount (body : List Note) : Nat :=
  (body.filter fun n => match n with | Note.toast _ => true | _ => false).length

/-- Number of notification elements of the category-attached gate on the page. -/
def adNoteCount (body : List Note) : Nat :=
  (body.filter fun n => match n with | Note.adNote _ => true | _ => false).length

/-- Number of emissions made through `showAdNotification`. -/
def adEmissions (emissions : List Emission) : Nat :=
  (emissions.filter fun e => match e with | Emission.ad _ => true | _ => false).length

/-! ## Lemmas on stores and objects -/

theorem lookup_assign_same {α : Type} (l : List (String × α)) (k : String) (v : α) :
    (assign l k v).lookup k = some v := by
  induction l with
  | nil => simp [assign, List.lookup]
  | cons p rest ih =>
    obtain ⟨k0, v0⟩ := p
    by_cases h : k0 = k
    · simp [assign, h, List.lookup]
    · have h2 : (k == k0) = false := by simpa using fun e => h e.symm
      simp [assign, h, List.lookup, h2, ih]

theorem lookup_assign_other {α : Type} (l : List (String × α)) (k k2 : String) (v : α)
    (hk : k2 ≠ k) : (assign l k v).lookup k2 = l.lookup k2 := by
  induction l with
  | nil =>
    have h2 : (k2 == k) = false := by simpa using hk
    simp [assign, List.lookup, h2]
  | cons p rest ih =>
    obtain ⟨k0, v0⟩ := p
    by_cases h : k0 = k
    · subst h
      have h2 : (k2 == k0) = false := by simpa using hk
      simp [assign, List.lookup, h2]
    · by_cases h3 : k2 = k0
      · subst h3
        simp [assign, h, List.lookup]
      · have h4 : (k2 == k0) = false := by simpa using h3
        simp [assign, h, List.lookup, h4, ih]

theorem own_set_other (clicks : JsObject) (k k2 : String) (v : JsValue) (hk : k2 ≠ k) :
    (clicks.set k v).own.lookup k2 = clicks.own.lookup k2 := by
  unfold JsObject.set
  split
  · rfl
  · exact lookup_assign_other _ _ _ _ hk

theorem get_set_other (clicks : JsObject) (k k2 : String) (v : JsValue) (hk : k2 ≠ k) :
    (clicks.set k v).get k2 = clicks.get k2 := by
  unfold JsObject.get
  rw [own_set_other clicks k k2 v hk]

theorem get_set_same (clicks : JsObject) (k : String) (v : JsValue)
    (hk : clicks.get k ≠ JsValue.other) :
    (clicks.set k v).get k = v ∧ (clicks.set k v).own.lookup k = some v := by
  have hset : clicks.set k v = ⟨assign clicks.own k v⟩ := by
    unfold JsObject.set
    split
    · rename_i h
      exfalso
      apply hk
      unfold JsObject.get
      rw [h.2, h.1]
      decide
    · rfl
  rw [hset]
  unfold JsObject.get
  simp [lookup_assign_same]

theorem plusOne_zero : plusOne (JsValue.number 0) = JsValue.number 1 := by
  decide

/-- Counts are incremented exactly below 2^53; from there on the sum is rounded to the
nearest double, so 2^53 + 1 stays 2^53. -/
theorem plusOne_rounds :
    plusOne (JsValue.number 41) = JsValue.number 42
    ∧ plusOne (JsValue.number (2 ^ 53 - 1)) = JsValue.number (2 ^ 53)
    ∧ plusOne (JsValue.number (2 ^ 53)) = JsValue.number (2 ^ 53)
    ∧ plusOne (JsValue.number (2 ^ 53 + 2)) = JsValue.number (2 ^ 53 + 4)
    ∧ plusOne (JsValue.number (2 ^ 54)) = JsValue.number (2 ^ 54) := by
  decide

theorem lookup_written (l : List (String × JsValue)) (k : String) :
    (l.map fun p => (p.1, written p.2)).lookup k = (l.lookup k).map written := by
  induction l with
  | nil => rfl
  | cons p rest ih =>
    obtain ⟨k0, v0⟩ := p
    by_cases h : k = k0
    · subst h; simp [List.lookup]
    · have h2 : (k == k0) = false := by simpa using h
      simpa [List.lookup, h2] using ih

theorem own_reparse (clicks : JsObject) (k : String) :
    (reparse clicks).own.lookup k = (clicks.own.lookup k).map written :=
  lookup_written clicks.own k

theorem get_reparse (clicks : JsObject) (k : String) :
    (reparse clicks).get k = written (clicks.get k) := by
  unfold JsObject.get
  rw [own_reparse]
  cases clicks.own.lookup k with
  | some v => rfl
  | none =>
    simp only [Option.map_none']
    split <;> rfl

/-- After the write of a count for `k` and the round trip through the stored text, the
count of `k` is the one written. -/
theorem stored_after_set (clicks : JsObject) (k : String) (n : Nat)
    (hk : clicks.get k ≠ JsValue.other) :
    (reparse (clicks.set k (JsValue.number n))).get k = JsValue.number n
    ∧ (reparse (clicks.set k (JsValue.number n))).own.lookup k = some (JsValue.number n) := by
  obtain ⟨h1, h2⟩ := get_set_same clicks k (JsValue.number n) hk
  rw [get_reparse, own_reparse, h1, h2]
  exact ⟨rfl, rfl⟩

/-! ## The category-attached gate, case by case -/

theorem parseStored_of_parsed (w : World) (clicks : JsObject) (h : parsed w.stored = some clicks) :
    parseStored w = (w.emit Effect.read, Except.ok clicks) := by
  obtain ⟨stored, log⟩ := w
  unfold parseStored
  cases stored with
  | none => simp [parsed] at h; simp [h]
  | some item =>
    cases item with
    | json obj => simp [parsed] at h; simp [h]
    | text s =>
      by_cases hs : s = ""
      · simp [parsed, hs] at h; simp [hs, h]
      · simp [parsed, hs] at h

theorem parseStored_of_not_parsed (w : World) (h : parsed w.stored = none) :
    parseStored w = (w.emit Effect.read, Except.error JsError.syntaxError) := by
  obtain ⟨stored, log⟩ := w
  unfold parseStored
  cases stored with
  | none => simp [parsed] at h
  | some item =>
    cases item with
    | json obj => simp [parsed] at h
    | text s =>
      by_cases hs : s = ""
      · simp [parsed, hs] at h
      · simp [hs]

theorem handleAdClick_exempt (w : World) (href : String) (h : exempt href = true) :
    handleAdClick w href = (w, Except.ok ()) := by
  simp [handleAdClick, h]

theorem click_throws (stored : Option Item) (href : String) (hx : exempt href = false)
    (hp : parsed stored = none) :
    click stored href = (⟨stored, [Effect.read]⟩, Except.error JsError.syntaxError) := by
  have h1 := parseStored_of_not_parsed ⟨stored, []⟩ hp
  simp [click, handleAdClick, hx, getClickCount, h1, World.emit]

theorem click_first (stored : Option Item) (href : String) (clicks : JsObject)
    (hx : exempt href = false) (hp : parsed stored = some clicks)
    (hc : orZero (clicks.get href) = JsValue.number 0) :
    click stored href =
      (⟨some (Item.json (reparse (clicks.set href (JsValue.number 1)))),
        [Effect.read, Effect.preventDefault, Effect.interstitial, Effect.read,
         Effect.write (Item.json (reparse (clicks.set href (JsValue.number 1)))),
         Effect.adNotification "Please wait... Ad loading"]⟩, Except.ok ()) := by
  have h1 := parseStored_of_parsed ⟨stored, []⟩ clicks hp
  have h2 := parseStored_of_parsed
    ⟨stored, [Effect.read, Effect.preventDefault, Effect.interstitial]⟩ clicks hp
  simp [World.emit] at h1 h2
  simp [click, handleAdClick, hx, getClickCount, h1, hc, World.emit, incrementClickCount, h2,
    storeClicks, plusOne_zero]

theorem click_second (stored : Option Item) (href : String) (clicks : JsObject)
    (hx : exempt href = false) (hp : parsed stored = some clicks)
    (hc : orZero (clicks.get href) ≠ JsValue.number 0) :
    click stored href =
      (⟨some (Item.json (reparse (clicks.set href (JsValue.number 0)))),
        [Effect.read, Effect.read,
         Effect.write (Item.json (reparse (clicks.set href (JsValue.number 0)))),
         Effect.adNotification "Redirecting..."]⟩, Except.ok ()) := by
  have h1 := parseStored_of_parsed ⟨stored, []⟩ clicks hp
  have h2 := parseStored_of_parsed ⟨stored, [Effect.read]⟩ clicks hp
  simp [World.emit] at h1 h2
  simp [click, handleAdClick, hx, getClickCount, h1, hc, World.emit, resetClickCount, h2,
    storeClicks]

theorem click_cases (stored : Option Item) (href : String) :
    click stored href = (⟨stored, []⟩, Except.ok ())
    ∨ click stored href = (⟨stored, [Effect.read]⟩, Except.error JsError.syntaxError)
    ∨ ∃ clicks v, parsed stored = some clicks
        ∧ (click stored href).1.stored = some (Item.json (reparse (clicks.set href v))) := by
  by_cases hx : exempt href = true
  · left
    exact handleAdClick_exempt _ _ hx
  · have hx2 : exempt href = false := by simpa using hx
    cases hp : parsed stored with
    | none => right; left; exact click_throws stored href hx2 hp
    | some clicks =>
      right; right
      by_cases hc : orZero (clicks.get href) = JsValue.number 0
      · exact ⟨clicks, JsValue.number 1, rfl, by
          rw [click_first stored href clicks hx2 hp hc]⟩
      · exact ⟨clicks, JsValue.number 0, rfl, by
          rw [click_second stored href clicks hx2 hp hc]⟩

theorem decision_click (stored : Option Item) (href : String) :
    decisionOf (click stored href).1.log = expectedDecision stored href := by
  unfold expectedDecision
  by_cases hx : exempt href = true
  · rw [click, handleAdClick_exempt _ _ hx]
    simp [hx, decisionOf]
  · have hx2 : exempt href = false := by simpa using hx
    cases hp : parsed stored with
    | none =>
      rw [click_throws stored href hx2 hp]
      simp [hx2, decisionOf]
    | some clicks =>
      by_cases hc : orZero (clicks.get href) = JsValue.number 0
      · rw [click_first stored href clicks hx2 hp hc]
        simp [hx2, hc, decisionOf]
      · rw [click_second stored href clicks hx2 hp hc]
        simp [hx2, hc, decisionOf]

theorem orZero_eq_zero (v : JsValue) (h : orZero v = JsValue.number 0) :
    v ≠ JsValue.other := by
  intro hv
  rw [hv] at h
  simp [orZero] at h

/-- Period two of the category-attached gate on every destination whose count reads 0:
the click intercepts and stores 1, the next one allows and stores 0. -/
theorem handleAdClick_period_two (stored : Option Item) (href : String) (clicks : JsObject)
    (hx : exempt href = false) (hp : parsed stored = some clicks)
    (hc : orZero (clicks.get href) = JsValue.number 0) :
    decisionOf (click stored href).1.log = Decision.intercept
    ∧ storedCount (click stored href).1.stored href = some (JsValue.number 1)
    ∧ decisionOf (click (click stored href).1.stored href).1.log = Decision.allow
    ∧ storedCount (click (click stored href).1.stored href).1.stored href
        = some (JsValue.number 0) := by
  have hne := orZero_eq_zero _ hc
  have h1 := click_first stored href clicks hx hp hc
  have hg := stored_after_set clicks href 1 hne
  have hp2 : parsed (click stored href).1.stored
      = some (reparse (clicks.set href (JsValue.number 1))) := by
    rw [h1]; rfl
  have hc2 : orZero ((reparse (clicks.set href (JsValue.number 1))).get href)
      ≠ JsValue.number 0 := by
    rw [hg.1]; simp [orZero]
  have h2 := click_second _ href _ hx hp2 hc2
  have hne2 : (reparse (clicks.set href (JsValue.number 1))).get href ≠ JsValue.other := by
    rw [hg.1]; simp
  have hg2 := stored_after_set (reparse (clicks.set href (JsValue.number 1))) href 0 hne2
  refine ⟨?_, ?_, ?_, ?_⟩
  · rw [h1]; simp [decisionOf]
  · rw [h1]; simpa [storedCount] using hg.2
  · rw [h2]; simp [decisionOf]
  · rw [h2]; simpa [storedCount] using hg2.2

/-! ## Frame lemmas for the durable gate -/

theorem storedCount_of_parsed (stored : Option Item) (clicks : JsObject) (href : String)
    (hp : parsed stored = some clicks) : storedCount stored href = clicks.own.lookup href := by
  cases stored with
  | none => simp [parsed] at hp; simp [storedCount, ← hp]
  | some item =>
    cases item with
    | json obj => simp [parsed] at hp; simp [storedCount, hp]
    | text s =>
      by_cases hs : s = ""
      · simp [parsed, hs] at hp; simp [storedCount, ← hp]
      · simp [parsed, hs] at hp

theorem getClickCount_result (stored : Option Item) (href : String) :
    (getClickCount ⟨stored, []⟩ href).2
      = match parsed stored with
        | none => Except.error JsError.syntaxError
        | some clicks => Except.ok (orZero (clicks.get href)) := by
  cases hp : parsed stored with
  | none => simp [getClickCount, parseStored_of_not_parsed ⟨stored, []⟩ hp]
  | some clicks => simp [getClickCount, parseStored_of_parsed ⟨stored, []⟩ clicks hp]

/-- A count that is absent or a number comes back from the stored text as it was. -/
theorem written_of_count (clicks : JsObject) (k : String)
    (hfin : clicks.own.lookup k = none ∨ ∃ n, clicks.own.lookup k = some (JsValue.number n)) :
    (clicks.own.lookup k).map written = clicks.own.lookup k
    ∧ written (clicks.get k) = clicks.get k := by
  unfold JsObject.get
  rcases hfin with h | ⟨n, h⟩
  · rw [h]
    refine ⟨rfl, ?_⟩
    simp only
    split <;> rfl
  · rw [h]
    exact ⟨rfl, rfl⟩

/-- A write for `d1` changes neither the own count of another destination `d2` nor what is
read for it, when the count of `d2` is absent or a number. -/
theorem frame_of_set (stored after : Option Item) (d1 d2 : String) (h : d1 ≠ d2)
    (hfin : storedCount stored d2 = none ∨ ∃ n, storedCount stored d2 = some (JsValue.number n))
    (hw : after = stored ∨ ∃ clicks v, parsed stored = some clicks
        ∧ after = some (Item.json (reparse (clicks.set d1 v)))) :
    storedCount after d2 = storedCount stored d2
    ∧ (getClickCount ⟨after, []⟩ d2).2 = (getClickCount ⟨stored, []⟩ d2).2
    ∧ expectedDecision after d2 = expectedDecision stored d2 := by
  rcases hw with hw | ⟨clicks, v, hp, hw⟩
  · rw [hw]; exact ⟨rfl, rfl, rfl⟩
  · have hne : d2 ≠ d1 := fun e => h e.symm
    have hp2 : parsed after = some (reparse (clicks.set d1 v)) := by rw [hw]; rfl
    rw [storedCount_of_parsed stored _ d2 hp] at hfin
    obtain ⟨w1, w2⟩ := written_of_count clicks d2 hfin
    have hown : (reparse (clicks.set d1 v)).own.lookup d2 = clicks.own.lookup d2 := by
      rw [own_reparse, own_set_other clicks d1 d2 v hne, w1]
    have hget : (reparse (clicks.set d1 v)).get d2 = clicks.get d2 := by
      rw [get_reparse, get_set_other clicks d1 d2 v hne, w2]
    refine ⟨?_, ?_, ?_⟩
    · rw [storedCount_of_parsed after _ d2 hp2, storedCount_of_parsed stored _ d2 hp, hown]
    · rw [getClickCount_result, getClickCount_result, hp, hp2]
      simp [hget]
    · unfold expectedDecision
      rw [hp, hp2]
      simp [hget]

theorem incrementClickCount_stored (stored : Option Item) (href : String) :
    (incrementClickCount ⟨stored, []⟩ href).1.stored = stored
    ∨ ∃ clicks v, parsed stored = some clicks
        ∧ (incrementClickCount ⟨stored, []⟩ href).1.stored
          = some (Item.json (reparse (clicks.set href v))) := by
  cases hp : parsed stored with
  | none =>
    left
    simp [incrementClickCount, parseStored_of_not_parsed ⟨stored, []⟩ hp, World.emit]
  | some clicks =>
    right
    exact ⟨clicks, plusOne (orZero (clicks.get href)), rfl, by
      simp [incrementClickCount, parseStored_of_parsed ⟨stored, []⟩ clicks hp, storeClicks]⟩

theorem resetClickCount_stored (stored : Option Item) (href : String) :
    (resetClickCount ⟨stored, []⟩ href).1.stored = stored
    ∨ ∃ clicks v, parsed stored = some clicks
        ∧ (resetClickCount ⟨stored, []⟩ href).1.stored
          = some (Item.json (reparse (clicks.set href v))) := by
  cases hp : parsed stored with
  | none =>
    left
    simp [resetClickCount, parseStored_of_not_parsed ⟨stored, []⟩ hp, World.emit]
  | some clicks =>
    right
    exact ⟨clicks, JsValue.number 0, rfl, by
      simp [resetClickCount, parseStored_of_parsed ⟨stored, []⟩ clicks hp, storeClicks]⟩

theorem click_stored (stored : Option Item) (href : String) :
    (click stored href).1.stored = stored
    ∨ ∃ clicks v, parsed stored = some clicks
        ∧ (click stored href).1.stored = some (Item.json (reparse (clicks.set href v))) := by
  rcases click_cases stored href with h | h | h
  · left; rw [h]
  · left; rw [h]
  · right; exact h

/-! ## The two gates click by click -/

theorem category_state_parity (href : String) (hx : exempt href = false)
    (hp : href ∉ objectPrototypeKeys) (n : Nat) :
    (n % 2 = 0 → ∃ clicks, parsed (categoryState href n) = some clicks
        ∧ orZero (clicks.get href) = JsValue.number 0)
    ∧ (n % 2 = 1 → ∃ clicks, parsed (categoryState href n) = some clicks
        ∧ clicks.get href = JsValue.number 1) := by
  induction n with
  | zero =>
    refine ⟨fun _ => ⟨⟨[]⟩, rfl, ?_⟩, fun h => by simp at h⟩
    simp [JsObject.get, hp, orZero, List.lookup]
  | succ n ih =>
    constructor
    · intro hn
      have hodd : n % 2 = 1 := by omega
      obtain ⟨clicks, hq, hc⟩ := ih.2 hodd
      have hc2 : orZero (clicks.get href) ≠ JsValue.number 0 := by rw [hc]; simp [orZero]
      have h2 := click_second _ href clicks hx hq hc2
      have hne : clicks.get href ≠ JsValue.other := by rw [hc]; simp
      refine ⟨reparse (clicks.set href (JsValue.number 0)), ?_, ?_⟩
      · show parsed (click (categoryState href n) href).1.stored = _
        rw [h2]; rfl
      · rw [(stored_after_set clicks href 0 hne).1]; rfl
    · intro hn
      have heven : n % 2 = 0 := by omega
      obtain ⟨clicks, hq, hc⟩ := ih.1 heven
      have h1 := click_first _ href clicks hx hq hc
      refine ⟨reparse (clicks.set href (JsValue.number 1)), ?_, ?_⟩
      · show parsed (click (categoryState href n) href).1.stored = _
        rw [h1]; rfl
      · exact (stored_after_set clicks href 1 (orZero_eq_zero _ hc)).1

theorem categoryDecision_alternates (href : String) (hx : exempt href = false)
    (hp : href ∉ objectPrototypeKeys) (n : Nat) :
    categoryDecision href n = if n % 2 = 0 then Decision.intercept else Decision.allow := by
  unfold categoryDecision
  rw [decision_click]
  unfold expectedDecision
  have h := category_state_parity href hx hp n
  by_cases hn : n % 2 = 0
  · obtain ⟨clicks, hq, hc⟩ := h.1 hn
    simp [hx, hq, hc, hn]
  · have hodd : n % 2 = 1 := by omega
    obtain ⟨clicks, hq, hc⟩ := h.2 hodd
    simp [hx, hq, hc, hn, orZero]

theorem getItem_setItem_same (st : Store) (key value : String) :
    getItem (setItem st key value) key = some value :=
  lookup_assign_same st key value

theorem getItem_setItem_other (st : Store) (key key2 value : String) (h : key2 ≠ key) :
    getItem (setItem st key value) key2 = getItem st key2 :=
  lookup_assign_other st key key2 value h

theorem inlineState_flag (href : String) (n : Nat) :
    getItem (inlineState href (n + 1)) (clickKey href) = some "true" := by
  induction n with
  | zero =>
    simp [inlineState, window.handleAdClick, getItem, truthy, List.lookup, setItem, assign]
  | succ n ih =>
    show getItem (window.handleAdClick (inlineState href (n + 1)) href).session _ = _
    simp [window.handleAdClick, ih, truthy]

theorem inlineDecision_first_only (href : String) (n : Nat) :
    inlineDecision href n = if n = 0 then Decision.intercept else Decision.allow := by
  cases n with
  | zero =>
    simp [inlineDecision, inlineState, window.handleAdClick, getItem, truthy, List.lookup,
      decisionOfReturn]
  | succ n =>
    simp [inlineDecision, window.handleAdClick, inlineState_flag href n, truthy,
      decisionOfReturn]

/-- Outside the names inherited from `Object.prototype`, a destination with no stored count,
or with 0 stored, reads as 0: there the gate has period two, and the third click finds the
state the first one found. -/
theorem period_two_outside_prototype (stored : Option Item) (href : String)
    (hx : exempt href = false) (hk : href ∉ objectPrototypeKeys) (hp : holdsMapping stored = true)
    (h0 : storedCount stored href = none ∨ storedCount stored href = some (JsValue.number 0)) :
    decisionOf (click stored href).1.log = Decision.intercept
    ∧ storedCount (click stored href).1.stored href = some (JsValue.number 1)
    ∧ decisionOf (click (click stored href).1.stored href).1.log = Decision.allow
    ∧ storedCount (click (click stored href).1.stored href).1.stored href
        = some (JsValue.number 0)
    ∧ decisionOf (click (click (click stored href).1.stored href).1.stored href).1.log
        = Decision.intercept
    ∧ storedCount (click (click (click stored href).1.stored href).1.stored href).1.stored href
        = some (JsValue.number 1) := by
  have hq : ∃ clicks, parsed stored = some clicks := by
    cases stored with
    | none => exact ⟨_, rfl⟩
    | some item =>
      cases item with
      | json obj => exact ⟨_, rfl⟩
      | text s =>
        have hs : s = "" := by simpa [holdsMapping] using hp
        exact ⟨⟨[]⟩, by simp [parsed, hs]⟩
  obtain ⟨clicks, hq⟩ := hq
  have hl := storedCount_of_parsed stored clicks href hq
  have hc : orZero (clicks.get href) = JsValue.number 0 := by
    unfold JsObject.get
    rcases h0 with h0 | h0
    · rw [← hl, h0]; simp [hk, orZero]
    · rw [← hl, h0]; simp [orZero]
  obtain ⟨a1, a2, a3, a4⟩ := handleAdClick_period_two stored href clicks hx hq hc
  refine ⟨a1, a2, a3, a4, ?_⟩
  -- the state after two clicks reads 0 again
  have h1 := click_first stored href clicks hx hq hc
  have hg := stored_after_set clicks href 1 (orZero_eq_zero _ hc)
  have hp2 : parsed (click stored href).1.stored
      = some (reparse (clicks.set href (JsValue.number 1))) := by
    rw [h1]; rfl
  have hc2 : orZero ((reparse (clicks.set href (JsValue.number 1))).get href)
      ≠ JsValue.number 0 := by
    rw [hg.1]; simp [orZero]
  have h2 := click_second _ href _ hx hp2 hc2
  have hne2 : (reparse (clicks.set href (JsValue.number 1))).get href ≠ JsValue.other := by
    rw [hg.1]; simp
  have hg2 := stored_after_set (reparse (clicks.set href (JsValue.number 1))) href 0 hne2
  have hp3 : parsed (click (click stored href).1.stored href).1.stored
      = some (reparse ((reparse (clicks.set href (JsValue.number 1))).set href
          (JsValue.number 0))) := by
    rw [h2]; rfl
  have hc3 : orZero ((reparse ((reparse (clicks.set href (JsValue.number 1))).set href
      (JsValue.number 0))).get href) = JsValue.number 0 := by
    rw [hg2.1]; rfl
  obtain ⟨b1, b2, _, _⟩ := handleAdClick_period_two _ href _ hx hp3 hc3
  exact ⟨b1, b2⟩

/-! ## The popup trigger -/

theorem step_created_cases (s : Session) (e : Event) (he : e ≠ Event.load) :
    (step s e).created = s.created ∧ (step s e).page.popupTriggered = s.page.popupTriggered
    ∨ (step s e).created = s.created + 1 ∧ s.page.popupTriggered = false
        ∧ truthy s.page.popupShown = false ∧ (step s e).page.popupTriggered = true
        ∧ (step s e).page.overlay = true := by
  cases e with
  | load => exact absurd rfl he
  | scroll y1 y2 =>
    simp only [step, checkScrollForPopup, createTelegramPopup]
    by_cases hl : s.page.scrollListener = true
    · by_cases ht : s.page.popupTriggered = true
      · simp [hl, ht]
      · by_cases hs : truthy s.page.popupShown = true
        · simp [hl, ht, hs]
        · by_cases hy : scrollPosition y1 y2 > 400
          · simp [hl, ht, hs, hy]
          · simp [hl, ht, hs, hy]
    · simp [hl]
  | timer =>
    simp only [step, popupTimeout, createTelegramPopup]
    by_cases hl : s.page.timerPending = true
    · by_cases ht : s.page.popupTriggered = true
      · simp [hl, ht]
      · by_cases hs : truthy s.page.popupShown = true
        · simp [hl, ht, hs]
        · simp [hl, ht, hs]
    · simp [hl]
  | close =>
    simp only [step, closePopup]
    by_cases hl : s.page.overlay = true
    · simp [hl]
    · simp [hl]

theorem step_latched (s : Session) (e : Event) (he : e ≠ Event.load) (h : latched s) :
    latched (step s e) := by
  unfold latched at *
  rcases step_created_cases s e he with ⟨h1, h2⟩ | ⟨h1, h2, _, h4, _⟩
  · rw [h1, h2]; exact h
  · rcases h with h | ⟨_, h⟩
    · right; rw [h1, h, h4]; simp
    · rw [h] at h2; simp at h2

theorem run_latched (events : List Event) (s : Session) (he : Event.load ∉ events)
    (h : latched s) : latched (run s events) := by
  induction events generalizing s with
  | nil => exact h
  | cons e rest ih =>
    simp only [List.mem_cons, not_or] at he
    exact ih (step s e) he.2 (step_latched s e (fun c => he.1 c.symm) h)

theorem step_latch_stays (s : Session) (e : Event) (he : e ≠ Event.load)
    (h : s.page.popupTriggered = true) : (step s e).page.popupTriggered = true := by
  rcases step_created_cases s e he with ⟨_, h2⟩ | ⟨_, _, _, h4, _⟩
  · rw [h2]; exact h
  · exact h4

theorem run_latch_stays (events : List Event) (s : Session) (he : Event.load ∉ events)
    (h : s.page.popupTriggered = true) : (run s events).page.popupTriggered = true := by
  induction events generalizing s with
  | nil => exact h
  | cons e rest ih =>
    simp only [List.mem_cons, not_or] at he
    exact ih (step s e) he.2 (step_latch_stays s e (fun c => he.1 c.symm) h)

theorem scroll_trigger_needs (s : Session) (y1 y2 : Nat)
    (h : (step s (Event.scroll y1 y2)).created ≠ s.created) :
    scrollPosition y1 y2 > 400 ∧ s.page.popupTriggered = false
    ∧ truthy s.page.popupShown = false
    ∧ (step s (Event.scroll y1 y2)).created = s.created + 1 := by
  simp only [step, checkScrollForPopup, createTelegramPopup] at h ⊢
  by_cases hl : s.page.scrollListener = true
  · by_cases ht : s.page.popupTriggered = true
    · simp [hl, ht] at h
    · by_cases hs : truthy s.page.popupShown = true
      · simp [hl, ht, hs] at h
      · by_cases hy : scrollPosition y1 y2 > 400
        · simp [hl, ht, hs, hy]
        · simp [hl, ht, hs, hy] at h
  · simp [hl] at h

theorem pageLoad_fields (storage : Store) (c l sp : Nat) :
    (pageLoad storage c l sp).created = c ∧ (pageLoad storage c l sp).loads = l + 1
    ∧ (pageLoad storage c l sp).page.popupTriggered = false
    ∧ (pageLoad storage c l sp).page.overlay = false
    ∧ (pageLoad storage c l sp).page.popupShown = getItem storage "telegramPopupShown"
    ∧ getItem (pageLoad storage c l sp).storage "telegramPopupShown"
        = getItem storage "telegramPopupShown" := by
  unfold pageLoad
  split
  · refine ⟨rfl, rfl, rfl, rfl, rfl, ?_⟩
    exact getItem_setItem_other storage "splashShown" "telegramPopupShown" "true" (by decide)
  · exact ⟨rfl, rfl, rfl, rfl, rfl, rfl⟩

theorem step_storage_cases (s : Session) (e : Event) (he : e ≠ Event.load) :
    (step s e).storage = s.storage
    ∨ (step s e).storage = setItem s.storage "telegramPopupShown" "true" := by
  cases e with
  | load => exact absurd rfl he
  | scroll y1 y2 =>
    left
    simp only [step, checkScrollForPopup, createTelegramPopup]
    split <;> [split <;> [split <;> rfl; rfl]; rfl]
  | timer =>
    left
    simp only [step, popupTimeout, createTelegramPopup]
    split <;> [split <;> rfl; rfl]
  | close =>
    simp only [step, closePopup]
    split
    · right; rfl
    · left; rfl

theorem step_flag_stays (s : Session) (e : Event)
    (h : truthy (getItem s.storage "telegramPopupShown") = true) :
    truthy (getItem (step s e).storage "telegramPopupShown") = true := by
  by_cases he : e = Event.load
  · subst he
    simp only [step]
    rw [(pageLoad_fields s.storage s.created s.loads s.splashes).2.2.2.2.2]
    exact h
  · rcases step_storage_cases s e he with h1 | h1
    · rw [h1]; exact h
    · rw [h1, getItem_setItem_same]; decide

theorem step_withinLoads (s : Session) (e : Event) (h : withinLoads s) :
    withinLoads (step s e) := by
  unfold withinLoads at *
  by_cases he : e = Event.load
  · subst he
    obtain ⟨h1, h2, h3, _⟩ := pageLoad_fields s.storage s.created s.loads s.splashes
    simp only [step, h1, h2, h3]
    split at h <;> simp <;> omega
  · have hloads : (step s e).loads = s.loads := by
      cases e with
      | load => exact absurd rfl he
      | scroll y1 y2 =>
        simp only [step, checkScrollForPopup, createTelegramPopup]
        split <;> [split <;> [split <;> rfl; rfl]; rfl]
      | timer =>
        simp only [step, popupTimeout, createTelegramPopup]
        split <;> [split <;> rfl; rfl]
      | close =>
        simp only [step, closePopup]
        split <;> rfl
    rcases step_created_cases s e he with ⟨h1, h2⟩ | ⟨h1, h2, _, h4, _⟩
    · simp only [hloads, h1, h2]; exact h
    · simp only [hloads, h1, h4]
      simp only [h2] at h
      simpa using h

theorem step_closedForGood (s : Session) (e : Event) (h : closedForGood s) :
    closedForGood (step s e) := by
  by_cases he : e = Event.load
  · subst he
    obtain ⟨_, _, _, h4, h5, h6⟩ := pageLoad_fields s.storage s.created s.loads s.splashes
    simp only [step, closedForGood]
    rw [h4, h5, h6]
    exact ⟨fun c => by simp at c, fun c => Or.inr c⟩
  · obtain ⟨ho, hf⟩ := h
    rcases step_created_cases s e he with ⟨_, h2⟩ | ⟨_, _, _, h4, _⟩
    · have hshown : (step s e).page.popupShown = s.page.popupShown
          ∧ (step s e).page.overlay = s.page.overlay := by
        cases e with
        | load => exact absurd rfl he
        | scroll y1 y2 =>
          simp only [step, checkScrollForPopup, createTelegramPopup] at h2 ⊢
          by_cases hl : s.page.scrollListener = true
          · by_cases ht : s.page.popupTriggered = true
            · simp [hl, ht]
            · by_cases hs : truthy s.page.popupShown = true
              · simp [hl, ht, hs]
              · by_cases hy : scrollPosition y1 y2 > 400
                · simp [hl, ht, hs, hy] at h2
                · simp [hl, ht, hs, hy]
          · simp [hl]
        | timer =>
          simp only [step, popupTimeout, createTelegramPopup] at h2 ⊢
          by_cases hl : s.page.timerPending = true
          · by_cases ht : s.page.popupTriggered = true
            · simp [hl, ht]
            · by_cases hs : truthy s.page.popupShown = true
              · simp [hl, ht, hs]
              · simp [hl, ht, hs] at h2
          · simp [hl]
        | close =>
          simp only [step, closePopup]
          split <;> exact ⟨rfl, rfl⟩
      unfold closedForGood
      rw [h2, hshown.1, hshown.2]
      refine ⟨ho, fun c => ?_⟩
      rcases step_storage_cases s e he with h1 | h1
      · rw [h1] at c; exact hf c
      · cases e with
        | close =>
          by_cases hov : s.page.overlay = true
          · exact Or.inl (ho hov)
          · simp only [step, hov] at c
            exact hf (by simpa using c)
        | load => exact absurd rfl he
        | scroll y1 y2 =>
          have : (step s (Event.scroll y1 y2)).storage = s.storage := by
            simp only [step, checkScrollForPopup, createTelegramPopup]
            split <;> [split <;> [split <;> rfl; rfl]; rfl]
          rw [this] at c; exact hf c
        | timer =>
          have : (step s Event.timer).storage = s.storage := by
            simp only [step, popupTimeout, createTelegramPopup]
            split <;> [split <;> rfl; rfl]
          rw [this] at c; exact hf c
    · exact ⟨fun _ => h4, fun _ => Or.inl h4⟩

theorem run_append (s : Session) (a b : List Event) : run s (a ++ b) = run (run s a) b := by
  simp [run, List.foldl_append]

theorem run_withinLoads (events : List Event) (s : Session) (h : withinLoads s) :
    withinLoads (run s events) := by
  induction events generalizing s with
  | nil => exact h
  | cons e rest ih => exact ih (step s e) (step_withinLoads s e h)

theorem run_closedForGood (events : List Event) (s : Session) (h : closedForGood s) :
    closedForGood (run s events) := by
  induction events generalizing s with
  | nil => exact h
  | cons e rest ih => exact ih (step s e) (step_closedForGood s e h)

theorem openSession_withinLoads (storage : Store) : withinLoads (openSession storage) := by
  obtain ⟨h1, h2, h3, _⟩ := pageLoad_fields storage 0 0 0
  unfold withinLoads openSession
  simp only [h1, h2, h3]
  simp

theorem openSession_closedForGood (storage : Store) : closedForGood (openSession storage) := by
  obtain ⟨_, _, _, h4, h5, h6⟩ := pageLoad_fields storage 0 0 0
  unfold closedForGood openSession
  rw [h4, h5, h6]
  exact ⟨fun c => by simp at c, fun c => Or.inr c⟩

theorem step_created_when_closed (s : Session) (e : Event) (hk : closedForGood s)
    (hf : truthy (getItem s.storage "telegramPopupShown") = true) :
    (step s e).created = s.created := by
  by_cases he : e = Event.load
  · subst he
    exact (pageLoad_fields s.storage s.created s.loads s.splashes).1
  · rcases step_created_cases s e he with ⟨h1, _⟩ | ⟨_, h2, h3, _, _⟩
    · exact h1
    · rcases hk.2 hf with h | h
      · rw [h] at h2; simp at h2
      · rw [h] at h3; simp at h3

theorem run_created_when_closed (events : List Event) (s : Session) (hk : closedForGood s)
    (hf : truthy (getItem s.storage "telegramPopupShown") = true) :
    (run s events).created = s.created := by
  induction events generalizing s with
  | nil => rfl
  | cons e rest ih =>
    show (run (step s e) rest).created = s.created
    rw [ih (step s e) (step_closedForGood s e hk) (step_flag_stays s e hf),
      step_created_when_closed s e hk hf]

/-! ## The claims on the category-attached gate -/

/-- C1 (the first click on a destination with nothing stored for it must intercept): the
destination "constructor" is not exempt and nothing is stored for it, yet `clicks[href]`
finds `Object.prototype.constructor`, so the first click is allowed through and stores 0;
the interception only comes with the second click. -/
theorem C1_constructor_first_click_allowed :
    exempt "constructor" = false
    ∧ storedCount none "constructor" = none
    ∧ (click none "constructor").2 = Except.ok ()
    ∧ decisionOf (click none "constructor").1.log = Decision.allow
    ∧ (click none "constructor").1.stored
        = some (Item.json ⟨[("constructor", JsValue.number 0)]⟩)
    ∧ decisionOf (click (click none "constructor").1.stored "constructor").1.log
        = Decision.intercept :=
  ⟨by decide, by decide, rfl, by decide, by decide, by decide⟩

/-- C2: on an exempt destination (starting with '#', or equal to 'index.html')
`AdManager.handleAdClick` returns at once: the stored entry and the effect log are exactly
what they were, so nothing was read or written, `preventDefault` was not called and no
notification was emitted. -/
theorem C2_exempt_is_untouched (w : World) (href : String) (h : exempt href = true) :
    handleAdClick w href = (w, Except.ok ())
    ∧ (click w.stored href).1.stored = w.stored
    ∧ decisionOf (click w.stored href).1.log = Decision.allow
    ∧ reads (click w.stored href).1.log = 0
    ∧ writes (click w.stored href).1.log = 0
    ∧ notifications (click w.stored href).1.log = [] := by
  have h1 := handleAdClick_exempt ⟨w.stored, []⟩ href h
  refine ⟨handleAdClick_exempt w href h, ?_, ?_, ?_, ?_, ?_⟩ <;> rw [click, h1] <;> rfl

theorem C2_exempt_is_untouched_witness :
    exempt "#top" = true
    ∧ handleAdClick ⟨some (Item.json ⟨[("#top", JsValue.number 0)]⟩), [Effect.read]⟩
          "#top"
        = (⟨some (Item.json ⟨[("#top", JsValue.number 0)]⟩), [Effect.read]⟩,
            Except.ok ()) :=
  ⟨by decide,
   (C2_exempt_is_untouched ⟨some (Item.json ⟨[("#top", JsValue.number 0)]⟩), [Effect.read]⟩
      "#top" (by decide)).1⟩

/-- C4, as claimed, fails: with the text "{not json" stored, a click on "/watch/123" ends
with the `SyntaxError` of `JSON.parse`; `preventDefault` is not called and no count is
stored. -/
theorem C4_malformed_throws :
    (click (some (Item.text "\x7bnot json")) "/watch/123").2
      = Except.error JsError.syntaxError
    ∧ decisionOf (click (some (Item.text "\x7bnot json")) "/watch/123").1.log
      = Decision.allow
    ∧ storedCount (click (some (Item.text "\x7bnot json")) "/watch/123").1.stored "/watch/123"
      = none
    ∧ decisionOf (click none "/watch/123").1.log = Decision.intercept :=
  ⟨rfl, by decide, by decide, by decide⟩

/-- C4, amended: when the stored value is a non-empty text that does not parse, a click on
a non-exempt destination ends with the `SyntaxError` thrown in `getClickCount`, after the
one read and before `preventDefault`, any write and any notification, and the stored text
stays as it is. An empty stored text is treated like an absent one. -/
theorem C4_malformed_aborts (s : String) (href : String) (hs : s ≠ "")
    (hx : exempt href = false) :
    click (some (Item.text s)) href
      = (⟨some (Item.text s), [Effect.read]⟩, Except.error JsError.syntaxError)
    ∧ click (some (Item.text "")) href
      = (⟨(click none href).1.stored, (click none href).1.log⟩, (click none href).2) := by
  constructor
  · exact click_throws _ href hx (by simp [parsed, hs])
  · by_cases hc : orZero ((⟨[]⟩ : JsObject).get href) = JsValue.number 0
    · rw [click_first (some (Item.text "")) href ⟨[]⟩ hx (by simp [parsed]) hc,
        click_first none href ⟨[]⟩ hx (by simp [parsed]) hc]
    · rw [click_second (some (Item.text "")) href ⟨[]⟩ hx (by simp [parsed]) hc,
        click_second none href ⟨[]⟩ hx (by simp [parsed]) hc]

theorem C4_malformed_aborts_witness :
    click (some (Item.text "\x7bnot json")) "/live/7"
      = (⟨some (Item.text "\x7bnot json"), [Effect.read]⟩, Except.error JsError.syntaxError) :=
  (C4_malformed_aborts "\x7bnot json" "/live/7" (by decide) (by decide)).1

/-- C9, as claimed, fails: with an unparseable text stored, the evaluation of the non-exempt
destination "/match/9" performs no write and emits no notification. -/
theorem C9_no_write_when_malformed :
    exempt "/match/9" = false
    ∧ writes (click (some (Item.text "oops")) "/match/9").1.log = 0
    ∧ notifications (click (some (Item.text "oops")) "/match/9").1.log = [] := by
  decide

/-- C9, amended: when the stored entry is absent, empty or the text of a plain object,
every evaluation of a non-exempt destination performs exactly one write and emits exactly
one notification: it intercepts exactly when the count read is 0, and then the write is the
one of `incrementClickCount` and the notification 'Please wait... Ad loading'; otherwise
the write is the one of `resetClickCount` and the notification 'Redirecting...'. -/
theorem C9_one_write_one_notice (stored : Option Item) (href : String)
    (hx : exempt href = false) (hp : holdsMapping stored = true) :
    writes (click stored href).1.log = 1
    ∧ (notifications (click stored href).1.log).length = 1
    ∧ (click stored href).2 = Except.ok ()
    ∧ (((getClickCount ⟨stored, []⟩ href).2 = Except.ok (JsValue.number 0)
        ∧ decisionOf (click stored href).1.log = Decision.intercept
        ∧ notifications (click stored href).1.log = ["Please wait... Ad loading"]
        ∧ (click stored href).1.stored = (incrementClickCount ⟨stored, []⟩ href).1.stored)
      ∨ ((getClickCount ⟨stored, []⟩ href).2 ≠ Except.ok (JsValue.number 0)
        ∧ decisionOf (click stored href).1.log = Decision.allow
        ∧ notifications (click stored href).1.log = ["Redirecting..."]
        ∧ (click stored href).1.stored = (resetClickCount ⟨stored, []⟩ href).1.stored)) := by
  have hq : ∃ clicks, parsed stored = some clicks := by
    cases stored with
    | none => exact ⟨_, rfl⟩
    | some item =>
      cases item with
      | json obj => exact ⟨_, rfl⟩
      | text s =>
        have hs : s = "" := by simpa [holdsMapping] using hp
        exact ⟨⟨[]⟩, by simp [parsed, hs]⟩
  obtain ⟨clicks, hq⟩ := hq
  have h0 := parseStored_of_parsed ⟨stored, []⟩ clicks hq
  by_cases hc : orZero (clicks.get href) = JsValue.number 0
  · rw [click_first stored href clicks hx hq hc]
    refine ⟨by simp [writes], by simp [notifications], rfl, Or.inl ⟨?_, ?_, ?_, ?_⟩⟩
    · simp [getClickCount, h0, hc]
    · simp [decisionOf]
    · simp [notifications]
    · simp [incrementClickCount, h0, storeClicks, hc, plusOne_zero]
  · rw [click_second stored href clicks hx hq hc]
    refine ⟨by simp [writes], by simp [notifications], rfl, Or.inr ⟨?_, ?_, ?_, ?_⟩⟩
    · simp [getClickCount, h0, hc]
    · simp [decisionOf]
    · simp [notifications]
    · simp [resetClickCount, h0, storeClicks]

theorem C9_one_write_one_notice_witness :
    writes (click none "/watch/123").1.log = 1
    ∧ (notifications (click none "/watch/123").1.log).length = 1 :=
  ⟨(C9_one_write_one_notice none "/watch/123" (by decide) (by decide)).1,
   (C9_one_write_one_notice none "/watch/123" (by decide) (by decide)).2.1⟩

/-- C3, as claimed, fails: on "/watch/123" the third click is intercepted by the
category-attached gate and allowed by the inline gate, and on the exempt destination "#top"
the first click is allowed by the category-attached gate and suppressed by the inline one. -/
theorem C3_gates_disagree :
    categoryDecision "/watch/123" 2 = Decision.intercept
    ∧ inlineDecision "/watch/123" 2 = Decision.allow
    ∧ categoryDecision "#top" 0 = Decision.allow
    ∧ inlineDecision "#top" 0 = Decision.intercept := by
  decide

/-- C3, amended: starting with nothing stored, on every destination that is not exempt and
not the name of a property of `Object.prototype`, the two gates decide the first two clicks
alike (intercept, then allow); from the third click on the category-attached gate keeps
alternating, while the inline gate allows every click after the first. -/
theorem C3_gates_agree_on_two_clicks (href : String) (n : Nat) (hx : exempt href = false)
    (hp : href ∉ objectPrototypeKeys) :
    (n < 2 → categoryDecision href n = inlineDecision href n)
    ∧ categoryDecision href n = (if n % 2 = 0 then Decision.intercept else Decision.allow)
    ∧ inlineDecision href n = (if n = 0 then Decision.intercept else Decision.allow) := by
  have hc := categoryDecision_alternates href hx hp n
  have hi := inlineDecision_first_only href n
  refine ⟨fun hn => ?_, hc, hi⟩
  rw [hc, hi]
  interval_cases n <;> simp

theorem C3_gates_agree_on_two_clicks_witness :
    categoryDecision "/watch/123" 1 = inlineDecision "/watch/123" 1
    ∧ categoryDecision "/watch/123" 1 = Decision.allow :=
  ⟨(C3_gates_agree_on_two_clicks "/watch/123" 1 (by decide) (by decide)).1 (by decide),
   (C3_gates_agree_on_two_clicks "/watch/123" 1 (by decide) (by decide)).2.1⟩

/-- C10, as claimed, fails: with the count 1e400 stored for "/b" (which `JSON.parse` reads
as `Infinity`), a click on "/a" writes the whole mapping back, the count of "/b" comes back
as `null`, and the next click on "/b" is intercepted where it was allowed before. -/
theorem C10_infinite_count_rewritten :
    "/a" ≠ "/b"
    ∧ storedCount (some (Item.json ⟨[("/b", JsValue.infinite)]⟩)) "/b"
        = some JsValue.infinite
    ∧ (click (some (Item.json ⟨[("/b", JsValue.infinite)]⟩)) "/a").1.stored
        = some (Item.json ⟨[("/b", JsValue.null), ("/a", JsValue.number 1)]⟩)
    ∧ storedCount (click (some (Item.json ⟨[("/b", JsValue.infinite)]⟩)) "/a").1.stored "/b"
        = some JsValue.null
    ∧ decisionOf (click (some (Item.json ⟨[("/b", JsValue.infinite)]⟩)) "/b").1.log
        = Decision.allow
    ∧ decisionOf (click (click (some (Item.json ⟨[("/b", JsValue.infinite)]⟩))
        "/a").1.stored "/b").1.log = Decision.intercept := by
  decide

/-- C10, amended: when the count stored for `d2`, if there is one, is a finite number, a
click on another destination `d1`, and each of `incrementClickCount` and `resetClickCount`
for `d1`, leaves the count stored for `d2` as it was; so what `getClickCount` reads for
`d2` and the decision of the next click on `d2` stay the same. -/
theorem C10_other_finite_count_untouched (stored : Option Item) (d1 d2 : String)
    (h : d1 ≠ d2)
    (hfin : storedCount stored d2 = none
      ∨ ∃ n, storedCount stored d2 = some (JsValue.number n)) :
    (storedCount (click stored d1).1.stored d2 = storedCount stored d2
      ∧ (getClickCount ⟨(click stored d1).1.stored, []⟩ d2).2
          = (getClickCount ⟨stored, []⟩ d2).2
      ∧ decisionOf (click (click stored d1).1.stored d2).1.log
          = decisionOf (click stored d2).1.log)
    ∧ (storedCount (incrementClickCount ⟨stored, []⟩ d1).1.stored d2 = storedCount stored d2
      ∧ (getClickCount ⟨(incrementClickCount ⟨stored, []⟩ d1).1.stored, []⟩ d2).2
          = (getClickCount ⟨stored, []⟩ d2).2
      ∧ decisionOf (click (incrementClickCount ⟨stored, []⟩ d1).1.stored d2).1.log
          = decisionOf (click stored d2).1.log)
    ∧ (storedCount (resetClickCount ⟨stored, []⟩ d1).1.stored d2 = storedCount stored d2
      ∧ (getClickCount ⟨(resetClickCount ⟨stored, []⟩ d1).1.stored, []⟩ d2).2
          = (getClickCount ⟨stored, []⟩ d2).2
      ∧ decisionOf (click (resetClickCount ⟨stored, []⟩ d1).1.stored d2).1.log
          = decisionOf (click stored d2).1.log) := by
  have f1 := frame_of_set stored _ d1 d2 h hfin (click_stored stored d1)
  have f2 := frame_of_set stored _ d1 d2 h hfin (incrementClickCount_stored stored d1)
  have f3 := frame_of_set stored _ d1 d2 h hfin (resetClickCount_stored stored d1)
  simp only [decision_click]
  exact ⟨f1, f2, f3⟩

theorem C10_other_finite_count_untouched_witness :
    storedCount (click (some (Item.json ⟨[("/b", JsValue.number 1)]⟩)) "/a").1.stored "/b"
      = storedCount (some (Item.json ⟨[("/b", JsValue.number 1)]⟩)) "/b"
    ∧ decisionOf (click (click (some (Item.json ⟨[("/b", JsValue.number 1)]⟩))
        "/a").1.stored "/b").1.log
      = decisionOf (click (some (Item.json ⟨[("/b", JsValue.number 1)]⟩)) "/b").1.log :=
  ⟨(C10_other_finite_count_untouched (some (Item.json ⟨[("/b", JsValue.number 1)]⟩))
      "/a" "/b" (by decide) (Or.inr ⟨1, rfl⟩)).1.1,
   (C10_other_finite_count_untouched (some (Item.json ⟨[("/b", JsValue.number 1)]⟩))
      "/a" "/b" (by decide) (Or.inr ⟨1, rfl⟩)).1.2.2⟩

/-! ## The claims on the session gate -/

/-- C5 (the popup is created at most once per session, whether or not it was closed): on a
new session the popup is created by a scroll to 500 on the first page; it is not closed, so
'telegramPopupShown' is still absent when the next page loads, and a scroll to 500 on that
page creates the popup a second time. The same happens through the 10 second timeout. -/
theorem C5_popup_again_on_next_page :
    getItem [] "telegramPopupShown" = none
    ∧ (run (openSession []) [Event.scroll 500 0]).created = 1
    ∧ getItem (run (openSession []) [Event.scroll 500 0]).storage "telegramPopupShown" = none
    ∧ (run (openSession []) [Event.scroll 500 0, Event.load]).page.popupShown = none
    ∧ (run (openSession []) [Event.scroll 500 0, Event.load, Event.scroll 500 0]).created = 2
    ∧ (run (openSession []) [Event.timer, Event.load, Event.timer]).created = 2 := by
  decide

/-- Over every sequence of page loads, scroll events, timer firings and close actions, the
popup is created at most once per page load. -/
theorem popup_at_most_once_per_load (storage : Store) (events : List Event) :
    (run (openSession storage) events).created ≤ (run (openSession storage) events).loads := by
  have hw := run_withinLoads events _ (openSession_withinLoads storage)
  unfold withinLoads at hw
  omega

/-- Once a close action has set 'telegramPopupShown', the popup is never created again,
whatever follows in the session. -/
theorem popup_never_after_close (storage : Store) (events more : List Event)
    (h : truthy (getItem (run (openSession storage) events).storage "telegramPopupShown")
      = true) :
    (run (openSession storage) (events ++ more)).created
      = (run (openSession storage) events).created := by
  rw [run_append]
  exact run_created_when_closed more _
    (run_closedForGood events _ (openSession_closedForGood storage)) h

/-- C6: within one page load, whatever scroll events, timer firings and close actions
follow, `createTelegramPopup` is called at most once; a scroll event calls it only at a
position strictly above 400 with the latch clear and the flag read at load unset; and the
latch `popupTriggered`, once true, stays true. A scroll to 500 fires the trigger, a second
scroll past 400 fires nothing, and a scroll to exactly 400 does not fire. -/
theorem C6_latch_fires_once (storage : Store) (events : List Event)
    (h : Event.load ∉ events) :
    (run (openSession storage) events).created ≤ 1
    ∧ (∀ (s : Session) (y1 y2 : Nat), (step s (Event.scroll y1 y2)).created ≠ s.created →
        scrollPosition y1 y2 > 400 ∧ s.page.popupTriggered = false
        ∧ truthy s.page.popupShown = false
        ∧ (step s (Event.scroll y1 y2)).created = s.created + 1)
    ∧ (∀ (s : Session) (later : List Event), Event.load ∉ later →
        s.page.popupTriggered = true → (run s later).page.popupTriggered = true)
    ∧ (run (openSession []) [Event.scroll 500 0]).created = 1
    ∧ (run (openSession []) [Event.scroll 500 0, Event.scroll 600 0]).created = 1
    ∧ (run (openSession []) [Event.scroll 500 0, Event.timer]).created = 1
    ∧ (run (openSession []) [Event.scroll 400 0]).created = 0 := by
  refine ⟨?_, scroll_trigger_needs, fun s later hl ht => run_latch_stays later s hl ht,
    by decide, by decide, by decide, by decide⟩
  have h0 : latched (openSession storage) :=
    Or.inl (pageLoad_fields storage 0 0 0).1
  rcases run_latched events _ h h0 with h1 | ⟨h1, _⟩ <;> omega

theorem C6_latch_fires_once_witness :
    (run (openSession []) [Event.timer, Event.scroll 500 0, Event.scroll 0 700]).created ≤ 1 :=
  (C6_latch_fires_once [] [Event.timer, Event.scroll 500 0, Event.scroll 0 700]
    (by decide)).1

/-! ## The claims on the theme -/

/-- C7, as claimed, fails: with no stored theme two toggles leave 'dark' stored where
nothing was stored, and with an unrecognized stored value they restore neither the
attribute nor the stored value. -/
theorem C7_two_toggles_do_not_restore :
    (loadTheme none).stored = none
    ∧ (toggleTheme (toggleTheme (loadTheme none))).stored = some "dark"
    ∧ (loadTheme (some "blue")).dataTheme = "blue"
    ∧ (toggleTheme (toggleTheme (loadTheme (some "blue")))).dataTheme = "light"
    ∧ (toggleTheme (toggleTheme (loadTheme (some "blue")))).stored = some "light" := by
  decide

/-- C7, amended: when the stored theme is absent, 'dark' or 'light', two toggles return the
`data-theme` attribute to what it was at load and leave that same theme stored: the stored
value is what it was whenever one was stored, and 'dark' when none was. -/
theorem C7_two_toggles_restore_theme (stored : Option String)
    (h : stored = none ∨ stored = some "dark" ∨ stored = some "light") :
    (toggleTheme (toggleTheme (loadTheme stored))).dataTheme = (loadTheme stored).dataTheme
    ∧ (toggleTheme (toggleTheme (loadTheme stored))).stored
        = some (loadTheme stored).dataTheme
    ∧ (stored ≠ none → (toggleTheme (toggleTheme (loadTheme stored))).stored = stored)
    ∧ (toggleTheme (toggleTheme (loadTheme stored))).icon = (loadTheme stored).icon := by
  rcases h with h | h | h <;> subst h <;> decide

theorem C7_two_toggles_restore_theme_witness :
    (toggleTheme (toggleTheme (loadTheme (some "light")))).stored = some "light" :=
  (C7_two_toggles_restore_theme (some "light") (Or.inr (Or.inr rfl))).2.2.1 (by decide)

/-- C8, as claimed, fails: the unrecognized stored value "blue" becomes the `data-theme`
attribute, which is then neither 'dark' nor 'light'. -/
theorem C8_unrecognized_theme_is_applied :
    (loadTheme (some "blue")).dataTheme = "blue"
    ∧ (loadTheme (some "blue")).dataTheme ≠ "dark"
    ∧ (loadTheme (some "blue")).dataTheme ≠ "light" := by
  decide

/-- C8, amended: on load the attribute is the stored value, and 'dark' when nothing or the
empty string is stored; so it is one of 'dark' and 'light' whenever the stored value is
absent, empty, 'dark' or 'light', and these are the only values the toggle stores. -/
theorem C8_theme_at_load (stored : Option String) :
    (truthy stored = false → (loadTheme stored).dataTheme = "dark")
    ∧ (∀ v, stored = some v → v ≠ "" → (loadTheme stored).dataTheme = v)
    ∧ (stored = none ∨ stored = some "" ∨ stored = some "dark" ∨ stored = some "light" →
        (loadTheme stored).dataTheme = "dark" ∨ (loadTheme stored).dataTheme = "light")
    ∧ (∀ t : Theme,
        (toggleTheme t).stored = some "dark" ∨ (toggleTheme t).stored = some "light")
    ∧ ((loadTheme stored).dataTheme = "light" ↔ stored = some "light") := by
  refine ⟨fun h => by simp [loadTheme, h], ?_, ?_, ?_, ?_⟩
  · intro v hv hne
    subst hv
    simp [loadTheme, truthy, hne]
  · intro h
    rcases h with h | h | h | h <;> subst h <;> decide
  · intro t
    by_cases hd : t.dataTheme = "dark"
    · right; simp [toggleTheme, hd]
    · left; simp [toggleTheme, hd]
  · cases stored with
    | none => simp [loadTheme, truthy]
    | some v =>
      by_cases hv : v = ""
      · subst hv; decide
      · simp [loadTheme, truthy, hv]

theorem C8_theme_at_load_witness :
    (loadTheme none).dataTheme = "dark" ∧ (loadTheme (some "light")).dataTheme = "light" :=
  ⟨(C8_theme_at_load none).1 (by decide),
   (C8_theme_at_load (some "light")).2.1 "light" rfl (by decide)⟩

/-! ## The inline gate and the session flags -/

theorem inline_returned (session : Store) (href : String) :
    (window.handleAdClick session href).returned = truthy (getItem session (clickKey href)) := by
  unfold window.handleAdClick
  by_cases h : truthy (getItem session (clickKey href)) = true
  · simp [h]
  · simp [h]

theorem inline_session (session : Store) (href : String) :
    (window.handleAdClick session href).session
      = if truthy (getItem session (clickKey href)) then session
        else setItem session (clickKey href) "true" := by
  unfold window.handleAdClick
  by_cases h : truthy (getItem session (clickKey href)) = true
  · simp [h]
  · simp [h]

theorem inline_wrote (session : Store) (href : String) :
    inlineWrote (window.handleAdClick session href).log
      = !truthy (getItem session (clickKey href)) := by
  unfold window.handleAdClick
  by_cases h : truthy (getItem session (clickKey href)) = true
  · simp [h, inlineWrote]
  · simp [h, inlineWrote]

/-- Writing 'true' under any key keeps every entry that already holds 'true'. -/
theorem getItem_setItem_true (st : Store) (key key2 : String)
    (h : getItem st key = some "true") : getItem (setItem st key2 "true") key = some "true" := by
  by_cases hk : key = key2
  · subst hk; exact getItem_setItem_same st key "true"
  · rw [getItem_setItem_other st key2 key "true" hk]; exact h

theorem inline_keeps_true (session : Store) (href key : String)
    (h : getItem session key = some "true") :
    getItem (window.handleAdClick session href).session key = some "true" := by
  rw [inline_session]
  split
  · exact h
  · exact getItem_setItem_true session key _ h

theorem pageLoad_keeps_true (storage : Store) (c l sp : Nat) (key : String)
    (h : getItem storage key = some "true") :
    getItem (pageLoad storage c l sp).storage key = some "true" := by
  unfold pageLoad
  split
  · exact getItem_setItem_true storage key _ h
  · exact h

theorem step_keeps_true (s : Session) (e : Event) (key : String)
    (h : getItem s.storage key = some "true") :
    getItem (step s e).storage key = some "true" := by
  by_cases he : e = Event.load
  · subst he
    exact pageLoad_keeps_true s.storage s.created s.loads s.splashes key h
  · rcases step_storage_cases s e he with h1 | h1
    · rw [h1]; exact h
    · rw [h1]; exact getItem_setItem_true s.storage key _ h

theorem act_keeps_true (b : Browser) (a : Action) (key : String)
    (h : getItem b.session.storage key = some "true") :
    getItem (act b a).session.storage key = some "true" := by
  cases a with
  | page e => exact step_keeps_true b.session e key h
  | inlineClick href => exact inline_keeps_true b.session.storage href key h
  | categoryClick href => exact h
  | toggle => exact h

theorem acts_keeps_true (actions : List Action) (b : Browser) (key : String)
    (h : getItem b.session.storage key = some "true") :
    getItem (acts b actions).session.storage key = some "true" := by
  induction actions generalizing b with
  | nil => exact h
  | cons a rest ih => exact ih (act b a) (act_keeps_true b a key h)

theorem clickKey_eq_iff (a b : String) :
    clickKey a = clickKey b ↔ a.data.flatMap replaceChar = b.data.flatMap replaceChar := by
  unfold clickKey
  constructor
  · intro h
    have h2 := congrArg String.data h
    simp only [String.data_append] at h2
    exact List.append_cancel_left h2
  · intro h
    rw [h]

/-! ## Counts under the category-attached gate -/

theorem assign_all_binary (l : List (String × JsValue)) (k : String) (v : JsValue)
    (hl : (l.all fun p => isBinary p.2) = true) (hv : isBinary v = true) :
    ((assign l k v).all fun p => isBinary p.2) = true := by
  induction l with
  | nil => simpa [assign] using hv
  | cons p rest ih =>
    obtain ⟨k0, v0⟩ := p
    simp only [List.all_cons, Bool.and_eq_true] at hl
    by_cases h : k0 = k
    · simp [assign, h, hv, hl.2]
    · simp only [assign, h, if_false, List.all_cons, Bool.and_eq_true]
      exact ⟨hl.1, ih hl.2⟩

theorem set_all_binary (clicks : JsObject) (k : String) (v : JsValue)
    (hl : (clicks.own.all fun p => isBinary p.2) = true) (hv : isBinary v = true) :
    ((clicks.set k v).own.all fun p => isBinary p.2) = true := by
  unfold JsObject.set
  split
  · exact hl
  · exact assign_all_binary clicks.own k v hl hv

theorem reparse_all_binary (clicks : JsObject)
    (hl : (clicks.own.all fun p => isBinary p.2) = true) :
    ((reparse clicks).own.all fun p => isBinary p.2) = true := by
  have hw : ∀ v : JsValue, isBinary (written v) = isBinary v := by
    intro v
    cases v <;> rfl
  simp only [reparse, List.all_map]
  simpa [Function.comp, hw] using hl

theorem binaryCounts_parsed (stored : Option Item) (h : binaryCounts stored = true) :
    ∃ clicks, parsed stored = some clicks ∧ (clicks.own.all fun p => isBinary p.2) = true := by
  cases stored with
  | none => exact ⟨⟨[]⟩, rfl, rfl⟩
  | some item =>
    cases item with
    | json obj => exact ⟨obj, rfl, h⟩
    | text s => simp [binaryCounts] at h

theorem click_binaryCounts (stored : Option Item) (href : String)
    (h : binaryCounts stored = true) : binaryCounts (click stored href).1.stored = true := by
  by_cases hx : exempt href = true
  · rw [click, handleAdClick_exempt _ _ hx]; exact h
  · have hx2 : exempt href = false := by simpa using hx
    obtain ⟨clicks, hq, hall⟩ := binaryCounts_parsed stored h
    by_cases hc : orZero (clicks.get href) = JsValue.number 0
    · rw [click_first stored href clicks hx2 hq hc]
      exact reparse_all_binary _ (set_all_binary clicks href _ hall (by decide))
    · rw [click_second stored href clicks hx2 hq hc]
      exact reparse_all_binary _ (set_all_binary clicks href _ hall (by decide))

theorem clickAll_binaryCounts (hrefs : List String) (stored : Option Item)
    (h : binaryCounts stored = true) : binaryCounts (clickAll stored hrefs) = true := by
  induction hrefs generalizing stored with
  | nil => exact h
  | cons href rest ih => exact ih _ (click_binaryCounts stored href h)

theorem lookup_of_all_binary (l : List (String × JsValue)) (k : String)
    (hl : (l.all fun p => isBinary p.2) = true) :
    l.lookup k = none ∨ l.lookup k = some (JsValue.number 0)
      ∨ l.lookup k = some (JsValue.number 1) := by
  induction l with
  | nil => left; rfl
  | cons p rest ih =>
    obtain ⟨k0, v0⟩ := p
    simp only [List.all_cons, Bool.and_eq_true] at hl
    by_cases h : k = k0
    · subst h
      right
      have hv : v0 = JsValue.number 0 ∨ v0 = JsValue.number 1 := by
        simpa [isBinary] using hl.1
      simpa [List.lookup] using hv
    · have h2 : (k == k0) = false := by simpa using h
      simpa [List.lookup, h2] using ih hl.2

theorem storedCount_of_binaryCounts (stored : Option Item) (href : String)
    (h : binaryCounts stored = true) :
    storedCount stored href = none ∨ storedCount stored href = some (JsValue.number 0)
      ∨ storedCount stored href = some (JsValue.number 1) := by
  cases stored with
  | none => left; rfl
  | some item =>
    cases item with
    | json obj => exact lookup_of_all_binary obj.own href h
    | text s => left; rfl

/-! ## Notification elements -/

theorem toastCount_removeExisting (body : List Note) :
    toastCount (removeExisting body) = toastCount body - 1 := by
  induction body with
  | nil => rfl
  | cons n rest ih =>
    cases n with
    | toast m => simp [removeExisting, toastCount]
    | adNote m => simpa [removeExisting, toastCount] using ih

theorem adNoteCount_removeExisting (body : List Note) :
    adNoteCount (removeExisting body) = adNoteCount body := by
  induction body with
  | nil => rfl
  | cons n rest ih =>
    cases n with
    | toast m => simp [removeExisting, adNoteCount]
    | adNote m => simpa [removeExisting, adNoteCount] using ih

theorem length_eq_counts (body : List Note) :
    body.length = toastCount body + adNoteCount body := by
  induction body with
  | nil => rfl
  | cons n rest ih =>
    cases n with
    | toast m => simp [toastCount, adNoteCount] at ih ⊢; omega
    | adNote m => simp [toastCount, adNoteCount] at ih ⊢; omega

theorem counts_append_toast (body : List Note) (m : String) :
    toastCount (body ++ [Note.toast m]) = toastCount body + 1
    ∧ adNoteCount (body ++ [Note.toast m]) = adNoteCount body := by
  simp [toastCount, adNoteCount, List.filter_append]

theorem counts_append_adNote (body : List Note) (m : String) :
    toastCount (body ++ [Note.adNote m]) = toastCount body
    ∧ adNoteCount (body ++ [Note.adNote m]) = adNoteCount body + 1 := by
  simp [toastCount, adNoteCount, List.filter_append]

theorem render_counts (body : List Note) (e : Emission) :
    (toastCount body ≤ 1 → toastCount (render body e) ≤ 1)
    ∧ adNoteCount (render body e) = adNoteCount body + adEmissions [e] := by
  cases e with
  | toast m d =>
    have h1 := toastCount_removeExisting body
    have h2 := adNoteCount_removeExisting body
    obtain ⟨a1, a2⟩ := counts_append_toast (removeExisting body) m
    simp only [render, showNotification]
    constructor
    · intro h
      rw [a1, h1]
      omega
    · rw [a2, h2]
      simp [adEmissions]
  | ad m =>
    obtain ⟨a1, a2⟩ := counts_append_adNote body m
    simp only [render, showAdNotification]
    constructor
    · intro h
      rw [a1]
      exact h
    · rw [a2]
      simp [adEmissions]

theorem renderAll_counts (emissions : List Emission) (body : List Note)
    (h : toastCount body ≤ 1) :
    toastCount (renderAll body emissions) ≤ 1
    ∧ adNoteCount (renderAll body emissions) = adNoteCount body + adEmissions emissions := by
  induction emissions generalizing body with
  | nil => exact ⟨h, by simp [renderAll, adEmissions]⟩
  | cons e rest ih =>
    obtain ⟨r1, r2⟩ := render_counts body e
    obtain ⟨i1, i2⟩ := ih (render body e) (r1 h)
    refine ⟨i1, ?_⟩
    show adNoteCount (renderAll (render body e) rest) = _
    rw [i2, r2]
    simp only [adEmissions, List.filter_cons, List.filter_nil]
    split
    · simp; omega
    · simp

/-! ## The claims on the inline gate, the stored counts, the flags and the notifications -/

/-- C11, as claimed, fails: the distinct destinations "/watch/1-2" and "/watch/1/2" get the
same session key, so a call on the first sets the flag consulted for the second and turns
the decision of the first call on the second from suppressing to allowing. -/
theorem C11_distinct_destinations_share_a_key :
    "/watch/1-2" ≠ "/watch/1/2"
    ∧ clickKey "/watch/1-2" = clickKey "/watch/1/2"
    ∧ getItem [] (clickKey "/watch/1/2") = none
    ∧ getItem (window.handleAdClick [] "/watch/1-2").session (clickKey "/watch/1/2")
        = some "true"
    ∧ (window.handleAdClick [] "/watch/1/2").returned = false
    ∧ (window.handleAdClick (window.handleAdClick [] "/watch/1-2").session
        "/watch/1/2").returned = true := by
  decide

/-- C11, amended: for every two destinations whose derived session keys differ, a call of
`window.handleAdClick` on the first changes neither the flag consulted for the second nor
what the next call on the second returns. The key replaces every character other than an
ASCII letter or digit by an underscore, so two destinations have the same key exactly when
they agree after that replacement, and then they share one flag. -/
theorem C11_flag_per_derived_key (session : Store) (d1 d2 : String)
    (h : clickKey d1 ≠ clickKey d2) :
    getItem (window.handleAdClick session d1).session (clickKey d2)
      = getItem session (clickKey d2)
    ∧ (window.handleAdClick (window.handleAdClick session d1).session d2).returned
      = (window.handleAdClick session d2).returned
    ∧ (∀ a b : String,
        clickKey a = clickKey b ↔ a.data.flatMap replaceChar = b.data.flatMap replaceChar)
    ∧ (∀ a b : String, clickKey a = clickKey b →
        (window.handleAdClick (window.handleAdClick session a).session b).returned = true) := by
  have hflag : getItem (window.handleAdClick session d1).session (clickKey d2)
      = getItem session (clickKey d2) := by
    rw [inline_session]
    split
    · rfl
    · exact getItem_setItem_other session (clickKey d1) (clickKey d2) "true"
        (fun e => h e.symm)
  refine ⟨hflag, ?_, clickKey_eq_iff, ?_⟩
  · rw [inline_returned, inline_returned, hflag]
  · intro a b hab
    rw [inline_returned, ← hab, inline_session]
    split
    · assumption
    · rw [getItem_setItem_same]; rfl

theorem C11_flag_per_derived_key_witness :
    getItem (window.handleAdClick [] "/watch/12").session (clickKey "/watch/21")
      = getItem [] (clickKey "/watch/21")
    ∧ (window.handleAdClick (window.handleAdClick [] "/watch/12").session "/watch/21").returned
      = (window.handleAdClick [] "/watch/21").returned :=
  ⟨(C11_flag_per_derived_key [] "/watch/12" "/watch/21" (by decide)).1,
   (C11_flag_per_derived_key [] "/watch/12" "/watch/21" (by decide)).2.1⟩

/-- C12: when the session flag of a destination is absent, the first call of
`window.handleAdClick` returns false and sets the flag to 'true'; after that, whatever the
program does in the session, every further call on that destination returns true, finds the
flag still 'true', writes nothing and leaves `sessionStorage` as it is. -/
theorem C12_inline_first_call_only (b : Browser) (href : String) (later : List Action)
    (h : getItem b.session.storage (clickKey href) = none) :
    (window.handleAdClick b.session.storage href).returned = false
    ∧ getItem (window.handleAdClick b.session.storage href).session (clickKey href)
        = some "true"
    ∧ inlineWrote (window.handleAdClick b.session.storage href).log = true
    ∧ getItem (acts (act b (Action.inlineClick href)) later).session.storage (clickKey href)
        = some "true"
    ∧ (window.handleAdClick (acts (act b (Action.inlineClick href)) later).session.storage
        href).returned = true
    ∧ inlineWrote (window.handleAdClick
        (acts (act b (Action.inlineClick href)) later).session.storage href).log = false
    ∧ (window.handleAdClick (acts (act b (Action.inlineClick href)) later).session.storage
        href).session = (acts (act b (Action.inlineClick href)) later).session.storage := by
  have h1 : getItem (window.handleAdClick b.session.storage href).session (clickKey href)
      = some "true" := by
    rw [inline_session, h]
    simp [truthy, getItem_setItem_same]
  have h2 : getItem (acts (act b (Action.inlineClick href)) later).session.storage
      (clickKey href) = some "true" :=
    acts_keeps_true later _ _ h1
  refine ⟨?_, h1, ?_, h2, ?_, ?_, ?_⟩
  · rw [inline_returned, h]; rfl
  · rw [inline_wrote, h]; rfl
  · rw [inline_returned, h2]; rfl
  · rw [inline_wrote, h2]; rfl
  · rw [inline_session, h2]; rfl

theorem C12_inline_first_call_only_witness :
    (window.handleAdClick [("splashShown", "true")] "/watch/123").returned = false
    ∧ (window.handleAdClick
        (acts (act ⟨openSession [], none, loadTheme none⟩ (Action.inlineClick "/watch/123"))
          [Action.inlineClick "/watch/123", Action.page Event.load,
           Action.inlineClick "/live/7"]).session.storage "/watch/123").returned = true :=
  ⟨(C12_inline_first_call_only ⟨openSession [], none, loadTheme none⟩ "/watch/123"
      [Action.inlineClick "/watch/123", Action.page Event.load, Action.inlineClick "/live/7"]
      (by decide)).1,
   (C12_inline_first_call_only ⟨openSession [], none, loadTheme none⟩ "/watch/123"
      [Action.inlineClick "/watch/123", Action.page Event.load, Action.inlineClick "/live/7"]
      (by decide)).2.2.2.2.1⟩

/-- C13: in every state reached from an empty mapping by clicks on any destinations through
`AdManager.handleAdClick`, the stored entry is an object all of whose counts are 0 or 1: for
every destination the stored count is absent, 0 or 1. Each click keeps this, as it stores 1
only where 0 was read and stores 0 otherwise. -/
theorem C13_counts_stay_binary (hrefs : List String) (href : String) :
    binaryCounts (clickAll none hrefs) = true
    ∧ (storedCount (clickAll none hrefs) href = none
      ∨ storedCount (clickAll none hrefs) href = some (JsValue.number 0)
      ∨ storedCount (clickAll none hrefs) href = some (JsValue.number 1))
    ∧ (∀ stored : Option Item, binaryCounts stored = true →
        binaryCounts (click stored href).1.stored = true) := by
  have hb := clickAll_binaryCounts hrefs none rfl
  exact ⟨hb, storedCount_of_binaryCounts _ href hb,
    fun stored hs => click_binaryCounts stored href hs⟩

theorem C13_counts_stay_binary_witness :
    binaryCounts (clickAll none ["/a", "constructor", "/a", "/b", "/a"]) = true
    ∧ binaryCounts (click (some (Item.json ⟨[("/a", JsValue.number 1)]⟩)) "/a").1.stored
        = true :=
  ⟨(C13_counts_stay_binary ["/a", "constructor", "/a", "/b", "/a"] "/a").1,
   (C13_counts_stay_binary [] "/a").2.2 (some (Item.json ⟨[("/a", JsValue.number 1)]⟩))
     (by decide)⟩

/-- C14: a `sessionStorage` entry that holds 'true' ('splashShown', 'telegramPopupShown', an
inline 'ad_click_' key, or any other key) still holds 'true' after every sequence of page
loads, scroll events, popup timeouts, popup closes, inline clicks, category clicks and theme
toggles: the program never removes it and never writes another value. -/
theorem C14_session_flags_stay_true (b : Browser) (key : String) (actions : List Action)
    (h : getItem b.session.storage key = some "true") :
    getItem (acts b actions).session.storage key = some "true" :=
  acts_keeps_true actions b key h

theorem C14_session_flags_stay_true_witness :
    getItem (acts ⟨openSession [], none, loadTheme none⟩
      [Action.page (Event.scroll 500 0), Action.page Event.close, Action.inlineClick "/x",
       Action.toggle, Action.page Event.load, Action.categoryClick "/x"]).session.storage
      "splashShown" = some "true" :=
  C14_session_flags_stay_true ⟨openSession [], none, loadTheme none⟩ "splashShown"
    [Action.page (Event.scroll 500 0), Action.page Event.close, Action.inlineClick "/x",
     Action.toggle, Action.page Event.load, Action.categoryClick "/x"] (by decide)

/-- C15, as claimed, fails: the two notifications of two clicks on a category-attached link
are both on the page, and so are the toast of a theme toggle and the notification of a
category click. -/
theorem C15_two_notifications_present :
    (renderAll [] (categoryEmissions (click none "/watch/123").1.log
      ++ categoryEmissions (click (click none "/watch/123").1.stored "/watch/123").1.log))
      = [Note.adNote "Please wait... Ad loading", Note.adNote "Redirecting..."]
    ∧ (renderAll [] (toggleEmission (loadTheme none)
        :: categoryEmissions (click none "/watch/123").1.log)).length = 2 := by
  decide

/-- C15, amended: after every sequence of emissions, with no timer fired, at most one
element made by `showNotification` is on the page, since each call removes the existing
one; the notifications of the category-attached gate are never replaced, so the page holds
one element per such emission besides the toast. Without emissions of the category-attached
gate at most one notification is present. -/
theorem C15_one_toast_at_a_time (emissions : List Emission) :
    toastCount (renderAll [] emissions) ≤ 1
    ∧ adNoteCount (renderAll [] emissions) = adEmissions emissions
    ∧ (renderAll [] emissions).length
        = toastCount (renderAll [] emissions) + adEmissions emissions
    ∧ (adEmissions emissions = 0 → (renderAll [] emissions).length ≤ 1) := by
  obtain ⟨h1, h2⟩ := renderAll_counts emissions [] (by decide)
  have h3 : adNoteCount (renderAll [] emissions) = adEmissions emissions := by
    rw [h2]; simp [adNoteCount]
  have h4 := length_eq_counts (renderAll [] emissions)
  refine ⟨h1, h3, by omega, fun h0 => by omega⟩

theorem C15_one_toast_at_a_time_witness :
    (renderAll [] (inlineEmissions (window.handleAdClick [] "/watch/123").log
      ++ [toggleEmission (loadTheme none), Emission.toast "Found 2 matches" 2000])).length
      ≤ 1 :=
  (C15_one_toast_at_a_time (inlineEmissions (window.handleAdClick [] "/watch/123").log
      ++ [toggleEmission (loadTheme none), Emission.toast "Found 2 matches" 2000])).2.2.2
    (by decide)

end FootHolics
